import Mathlib

/-!
# Verification of the `FakeDetectorTrainer` training harness

Shallow embedding of `src/training.py` (class `FakeDetectorTrainer`) from the
Fake-Image-Detector repository.  The torch collaborators (model, optimizer,
loss functions, data loaders, tensorboard writer) are opaque capabilities the
class consumes; they are modelled by an explicit capability record `TorchEnv`
and by ordinary Lean data:

* a model is its parameter value plus a training/evaluation mode flag and the
  device it was last moved to (`NNModule`);
* a data loader is a finite list of `(input, target)` batches (its `len` is
  the batch count, as for a torch `DataLoader`);
* scalar losses are rationals (exact stand-ins for Python floats);
* the tensorboard `SummaryWriter` records the `add_scalars` calls it receives
  and whether `flush` was called;
* Python's mutable `self` plus exceptions are modelled by the state-carrying
  result type `PyResult`: a method either returns `ok` with the updated
  object and a value, or `exn` with the updated-so-far object and the
  exception that escaped (attribute mutations performed before the raise
  survive, exactly as in Python).

`set_seed` (training.py lines 78-90) only touches process-global torch RNG
state and is observationally irrelevant to every field of the trainer, so it
is not part of the state.
-/

namespace FakeImageDetector

/-- Training / evaluation mode of a torch `nn.Module` (`model.train()` /
`model.eval()`). -/
inductive Mode where
  | training
  | evaluation
deriving DecidableEq

/-- Compute devices a session can be bound to.  `other n` stands for any
further device string (e.g. an out-of-range cuda index). -/
inductive Device where
  | cpu
  | cuda
  | other (idx : Nat)
deriving DecidableEq

/-- The Python exceptions the embedded code can raise or propagate. -/
inductive Err where
  | attributeError
  | zeroDivisionError
  | runtimeError
  | stepError
deriving DecidableEq

/-- Result of running a Python method on a mutable object of type `σ`:
either a normal return carrying the mutated object and the returned value, or
an escaping exception carrying the object as mutated up to the raise. -/
inductive PyResult (σ : Type u) (α : Type v) where
  | ok (s : σ) (val : α)
  | exn (s : σ) (e : Err)
deriving DecidableEq

/-- The object state after the call, whether it returned or raised. -/
def PyResult.state : PyResult σ α → σ
  | .ok s _ => s
  | .exn s _ => s

/-- The returned value, if the call returned normally. -/
def PyResult.value? : PyResult σ α → Option α
  | .ok _ v => some v
  | .exn _ _ => none

@[simp] theorem PyResult.state_ok (s : σ) (v : α) : (PyResult.ok s v).state = s := rfl

@[simp] theorem PyResult.state_exn (s : σ) (e : Err) : (PyResult.exn (α := α) s e).state = s := rfl

/-- A torch `nn.Module` as the trainer observes it: its parameters, its
training/evaluation mode flag, and the device it was last moved to. -/
structure NNModule (P : Type) where
  params : P
  mode : Mode
  device : Option Device
deriving DecidableEq

/-- One `add_scalars("loss", scalars, epoch)` call recorded by the writer
(training.py lines 235-239).  `trainValue` is the value stored under the key
"loss/train" (always present in the dict); `valValue` is the value stored
under "loss/val" when that key was added, `none` when it was not. -/
structure ScalarEvent where
  tag : Nat
  trainValue : Option ℚ
  valValue : Option ℚ
deriving DecidableEq

/-- The tensorboard `SummaryWriter` collaborator, observed through the two
operations the trainer uses: `add_scalars` and `flush`. -/
structure SummaryWriter where
  log_dir : String
  events : List ScalarEvent
  flushed : Bool
deriving DecidableEq

/-- The state of a `FakeDetectorTrainer` object (training.py lines 30-59):
model, optimizer state, the optional bound device (`self.device` exists only
after `to` was called, hence `Option`), the two optional loaders, the
optional writer, and the three `TrainingState` fields. -/
structure FakeDetectorTrainer (P OS I T : Type) where
  model : NNModule P
  optimizerState : OS
  device : Option Device
  train_loader : Option (List (I × T))
  val_loader : Option (List (I × T))
  writer : Option SummaryWriter
  losses : List (Option ℚ)
  val_losses : List (Option ℚ)
  total_epochs : Nat
deriving DecidableEq

/-- The opaque torch capabilities the trainer consumes.  `forward` is the
model's forward pass as a function of its parameters; `train_loss_fn` /
`val_loss_fn` compute the scalar loss and may raise (e.g. shape mismatch);
`backward` produces the gradient of the training loss at the current
parameters for one batch; `optStep` is one `optimizer.step()` applied to the
optimizer state and parameters given a gradient; `moveI` / `moveT` are
`.to(device)` on input and target tensors; `avail` says which devices torch
can actually move a module to, and `cudaAvailable` is
`torch.cuda.is_available()`. -/
structure TorchEnv (P G OS I T O : Type) where
  forward : P → I → O
  train_loss_fn : O → T → Except Err ℚ
  val_loss_fn : O → T → Except Err ℚ
  backward : P → I → T → G
  optStep : OS → P → G → OS × P
  moveI : Device → I → I
  moveT : Device → T → T
  avail : Device → Bool
  cudaAvailable : Bool

variable {P G OS I T O : Type}

namespace FakeDetectorTrainer

/-- `__init__` (training.py lines 30-59): stores the injected model and
optimizer, leaves loaders and writer unset, and zeroes the training state.
Note that `self.device` is NOT initialised here. -/
def init (I T : Type) (model : NNModule P) (optimizerState : OS) :
    FakeDetectorTrainer P OS I T :=
  { model := model
    optimizerState := optimizerState
    device := none
    train_loader := none
    val_loader := none
    writer := none
    losses := []
    val_losses := []
    total_epochs := 0 }

/-- `to` (training.py lines 61-76): try to bind `self.device` and move the
model; on `RuntimeError` fall back to cuda-if-available-else-cpu, log a
warning and move the model there.  The returned `Bool` records whether the
warning was emitted.  The fallback `model.to` is outside the `try`, so its
failure propagates. -/
def «to» (env : TorchEnv P G OS I T O) (tr : FakeDetectorTrainer P OS I T)
    (device : Device) : PyResult (FakeDetectorTrainer P OS I T) Bool :=
  if env.avail device then
    .ok { tr with device := some device,
                  model := { tr.model with device := some device } } false
  else
    let fb := if env.cudaAvailable then Device.cuda else Device.cpu
    let tr := { tr with device := some fb }
    if env.avail fb then
      .ok { tr with model := { tr.model with device := some fb } } true
    else
      .exn tr Err.runtimeError

/-- `set_loaders` (training.py lines 92-104). -/
def set_loaders (tr : FakeDetectorTrainer P OS I T)
    (train_loader : List (I × T)) (val_loader : Option (List (I × T))) :
    FakeDetectorTrainer P OS I T :=
  { tr with train_loader := some train_loader, val_loader := val_loader }

/-- `set_tensorboard` (training.py lines 106-118); `suffix` is the creation
timestamp, an external input. -/
def set_tensorboard (tr : FakeDetectorTrainer P OS I T)
    (name : String) (log_dir : String) (suffix : String) :
    FakeDetectorTrainer P OS I T :=
  let w : SummaryWriter :=
    { log_dir := log_dir ++ "/" ++ name ++ "_" ++ suffix,
      events := [],
      flushed := false }
  { tr with writer := some w }

/-- The closure produced by `_make_train_step` (training.py lines 121-150):
`model.train()`, zero the gradients, forward, training loss (may raise),
backward, one optimizer step, return the scalar loss. -/
def train_step (env : TorchEnv P G OS I T O) (tr : FakeDetectorTrainer P OS I T)
    (x : I) (y : T) : PyResult (FakeDetectorTrainer P OS I T) ℚ :=
  let tr := { tr with model := { tr.model with mode := Mode.training } }
  let yhat := env.forward tr.model.params x
  match env.train_loss_fn yhat y with
  | .error e => .exn tr e
  | .ok lossVal =>
    let g := env.backward tr.model.params x y
    let up := env.optStep tr.optimizerState tr.model.params g
    .ok { tr with optimizerState := up.1,
                  model := { tr.model with params := up.2 } } lossVal

/-- The closure produced by `_make_val_step` (training.py lines 152-179):
`model.eval()`, forward and validation loss under `torch.no_grad()` (no
parameter or optimizer mutation), return the scalar loss. -/
def val_step (env : TorchEnv P G OS I T O) (tr : FakeDetectorTrainer P OS I T)
    (x : I) (y : T) : PyResult (FakeDetectorTrainer P OS I T) ℚ :=
  let tr := { tr with model := { tr.model with mode := Mode.evaluation } }
  let yhat := env.forward tr.model.params x
  match env.val_loss_fn yhat y with
  | .error e => .exn tr e
  | .ok lossVal => .ok tr lossVal

/-- The `for x, y in data_loader` loop of `_mini_batch` (training.py lines
205-208): per batch, read `self.device` (an `AttributeError` if it was never
set), move the batch there, run the step function, accumulate the scalar. -/
def miniBatchLoop (moveI : Device → I → I) (moveT : Device → T → T)
    (step : FakeDetectorTrainer P OS I T → I → T →
      PyResult (FakeDetectorTrainer P OS I T) ℚ) :
    List (I × T) → FakeDetectorTrainer P OS I T → ℚ →
      PyResult (FakeDetectorTrainer P OS I T) ℚ
  | [], tr, acc => .ok tr acc
  | (x, y) :: rest, tr, acc =>
    match tr.device with
    | none => .exn tr Err.attributeError
    | some d =>
      match step tr (moveI d x) (moveT d y) with
      | .exn s e => .exn s e
      | .ok tr lossVal => miniBatchLoop moveI moveT step rest tr (acc + lossVal)

/-- `_mini_batch` (training.py lines 181-210): select loader and step by
mode; an unbound loader yields `None`; otherwise loop over all batches and
divide the accumulated loss by `len(data_loader)` — a `ZeroDivisionError`
when the bound loader is empty. -/
def mini_batch (env : TorchEnv P G OS I T O) (tr : FakeDetectorTrainer P OS I T)
    (validation : Bool) : PyResult (FakeDetectorTrainer P OS I T) (Option ℚ) :=
  let data_loader := if validation then tr.val_loader else tr.train_loader
  match data_loader with
  | none => .ok tr none
  | some batches =>
    let step := if validation then val_step env else train_step env
    match miniBatchLoop env.moveI env.moveT step batches tr 0 with
    | .exn s e => .exn s e
    | .ok tr total =>
      if batches.length = 0 then .exn tr Err.zeroDivisionError
      else .ok tr (some (total / (batches.length : ℚ)))

end FakeDetectorTrainer

/-- Python truthiness of an `Optional[float]`: `None` and `0.0` are falsy,
every other float is truthy.  This is the test `if val_loss:` performs at
training.py line 237. -/
def pyTruthy : Option ℚ → Bool
  | none => false
  | some q => decide (q ≠ 0)

/-- The value stored under "loss/val" by the emission code: the validation
loss when it is truthy, no entry otherwise. -/
def truthyFilter (v : Option ℚ) : Option ℚ :=
  if pyTruthy v then v else none

namespace FakeDetectorTrainer

/-- The `if self.writer: ... add_scalars ...` block of `train` (training.py
lines 235-239): when a writer is bound, record one `add_scalars` call tagged
with the loop index, holding the train loss under "loss/train" and, only
when `val_loss` is truthy, the validation loss under "loss/val". -/
def logEpoch (epoch : Nat) (train_loss val_loss : Option ℚ)
    (tr : FakeDetectorTrainer P OS I T) : FakeDetectorTrainer P OS I T :=
  match tr.writer with
  | none => tr
  | some w =>
    { tr with writer := some { w with events := w.events ++
        [{ tag := epoch, trainValue := train_loss,
           valValue := truthyFilter val_loss }] } }

/-- One iteration of the epoch loop of `train` (training.py lines 225-239),
at loop index `epoch`: increment `total_epochs` first, run the training pass
and append its result, run the validation pass (under
`torch.inference_mode()`) and append its result, then emit this epoch's
scalars if a writer is bound. -/
def epoch_body (env : TorchEnv P G OS I T O) (epoch : Nat)
    (tr : FakeDetectorTrainer P OS I T) :
    PyResult (FakeDetectorTrainer P OS I T) Unit :=
  let tr := { tr with total_epochs := tr.total_epochs + 1 }
  match mini_batch env tr false with
  | .exn s e => .exn s e
  | .ok tr train_loss =>
    let tr := { tr with losses := tr.losses ++ [train_loss] }
    match mini_batch env tr true with
    | .exn s e => .exn s e
    | .ok tr val_loss =>
      let tr := { tr with val_losses := tr.val_losses ++ [val_loss] }
      .ok (logEpoch epoch train_loss val_loss tr) ()

/-- The `for epoch in range(n_epochs)` loop of `train`, with `epoch` the next
loop index and the second argument the number of iterations left. -/
def train_loop (env : TorchEnv P G OS I T O) :
    Nat → Nat → FakeDetectorTrainer P OS I T →
      PyResult (FakeDetectorTrainer P OS I T) Unit
  | _, 0, tr => .ok tr ()
  | epoch, n + 1, tr =>
    match epoch_body env epoch tr with
    | .exn s e => .exn s e
    | .ok tr _ => train_loop env (epoch + 1) n tr

/-- The `self.writer.flush()` epilogue of `train` (training.py lines
241-242). -/
def flush_writer (tr : FakeDetectorTrainer P OS I T) :
    FakeDetectorTrainer P OS I T :=
  match tr.writer with
  | none => tr
  | some w => { tr with writer := some { w with flushed := true } }

/-- `train` (training.py lines 212-242): seed the global RNGs (no trainer
field changes), run the epoch loop from index 0, then flush the writer if
one is bound. -/
def train (env : TorchEnv P G OS I T O) (tr : FakeDetectorTrainer P OS I T)
    (n_epochs : Nat) : PyResult (FakeDetectorTrainer P OS I T) Unit :=
  match train_loop env 0 n_epochs tr with
  | .exn s e => .exn s e
  | .ok tr _ => .ok (flush_writer tr) ()

end FakeDetectorTrainer

/-- The checkpoint dict built by `save_model` (training.py lines 253-259). -/
structure Checkpoint (P OS : Type) where
  model : P
  optimizer : OS
  total_epochs : Nat
  losses : List (Option ℚ)
  val_losses : List (Option ℚ)
deriving DecidableEq

/-- The file system as `torch.save` / `torch.load` see it: a history of
writes, most recent first. -/
abbrev FileSystem (P OS : Type) := List (String × Checkpoint P OS)

/-- `torch.save(checkpoint, path)`. -/
def torch_save (fs : FileSystem P OS) (c : Checkpoint P OS) (path : String) :
    FileSystem P OS :=
  (path, c) :: fs

/-- `torch.load(path)`: the most recent write at `path`, if any. -/
def torch_load (fs : FileSystem P OS) (path : String) : Option (Checkpoint P OS) :=
  match fs with
  | [] => none
  | (p, c) :: rest => if p = path then some c else torch_load rest path

namespace FakeDetectorTrainer

/-- `save_model` (training.py lines 244-261): serialize model parameters,
optimizer state and the three `TrainingState` fields as one artifact at
`path`. -/
def save_model (tr : FakeDetectorTrainer P OS I T) (fs : FileSystem P OS)
    (path : String) : FileSystem P OS :=
  torch_save fs
    { model := tr.model.params
      optimizer := tr.optimizerState
      total_epochs := tr.total_epochs
      losses := tr.losses
      val_losses := tr.val_losses } path

/-- `load_model` (training.py lines 264-285): load the artifact (missing
file propagates an error), overwrite model parameters, optimizer state and
the three `TrainingState` fields, then set the model mode from `eval_mode`. -/
def load_model (tr : FakeDetectorTrainer P OS I T) (fs : FileSystem P OS)
    (path : String) (eval_mode : Bool) :
    PyResult (FakeDetectorTrainer P OS I T) Unit :=
  match torch_load fs path with
  | none => .exn tr Err.runtimeError
  | some c =>
    let tr := { tr with
      model := { tr.model with params := c.model },
      optimizerState := c.optimizer,
      total_epochs := c.total_epochs,
      losses := c.losses,
      val_losses := c.val_losses }
    if eval_mode then
      .ok { tr with model := { tr.model with mode := Mode.evaluation } } ()
    else
      .ok { tr with model := { tr.model with mode := Mode.training } } ()

/-- `predict` (training.py lines 288-303): `model.eval()`, then under
`torch.inference_mode()` move `x` to `self.device` (an `AttributeError` if
the device was never bound) and return the raw forward output. -/
def predict (env : TorchEnv P G OS I T O) (tr : FakeDetectorTrainer P OS I T)
    (x : I) : PyResult (FakeDetectorTrainer P OS I T) O :=
  let tr := { tr with model := { tr.model with mode := Mode.evaluation } }
  match tr.device with
  | none => .exn tr Err.attributeError
  | some d => .ok tr (env.forward tr.model.params (env.moveI d x))

/-- A series of `train` calls, one per entry of `ns`; it completes only if
every call returns normally. -/
def train_series (env : TorchEnv P G OS I T O) :
    List Nat → FakeDetectorTrainer P OS I T →
      PyResult (FakeDetectorTrainer P OS I T) Unit
  | [], tr => .ok tr ()
  | n :: ns, tr =>
    match train env tr n with
    | .exn s e => .exn s e
    | .ok tr _ => train_series env ns tr

end FakeDetectorTrainer

/-!
## Auxiliary lemmas

### Rewriting equations for the embedded operations

Conditional equations exposing one evaluation step of each operation, so the
proofs below can follow runs of the code by rewriting.
-/

section Equations

variable (env : TorchEnv P G OS I T O) (moveI : Device → I → I)
variable (moveT : Device → T → T)
variable (step : FakeDetectorTrainer P OS I T → I → T →
  PyResult (FakeDetectorTrainer P OS I T) ℚ)

theorem train_step_error {tr : FakeDetectorTrainer P OS I T} {x : I} {y : T} {e : Err}
    (h : env.train_loss_fn (env.forward tr.model.params x) y = .error e) :
    FakeDetectorTrainer.train_step env tr x y =
      .exn { tr with model := { tr.model with mode := Mode.training } } e := by
  simp only [FakeDetectorTrainer.train_step, h]

theorem train_step_value {tr : FakeDetectorTrainer P OS I T} {x : I} {y : T} {q : ℚ}
    (h : env.train_loss_fn (env.forward tr.model.params x) y = .ok q) :
    FakeDetectorTrainer.train_step env tr x y =
      .ok { tr with
              optimizerState := (env.optStep tr.optimizerState tr.model.params
                (env.backward tr.model.params x y)).1,
              model := { tr.model with
                mode := Mode.training,
                params := (env.optStep tr.optimizerState tr.model.params
                  (env.backward tr.model.params x y)).2 } } q := by
  simp only [FakeDetectorTrainer.train_step, h]

theorem val_step_error {tr : FakeDetectorTrainer P OS I T} {x : I} {y : T} {e : Err}
    (h : env.val_loss_fn (env.forward tr.model.params x) y = .error e) :
    FakeDetectorTrainer.val_step env tr x y =
      .exn { tr with model := { tr.model with mode := Mode.evaluation } } e := by
  simp only [FakeDetectorTrainer.val_step, h]

theorem val_step_value {tr : FakeDetectorTrainer P OS I T} {x : I} {y : T} {q : ℚ}
    (h : env.val_loss_fn (env.forward tr.model.params x) y = .ok q) :
    FakeDetectorTrainer.val_step env tr x y =
      .ok { tr with model := { tr.model with mode := Mode.evaluation } } q := by
  simp only [FakeDetectorTrainer.val_step, h]

theorem miniBatchLoop_nil (tr : FakeDetectorTrainer P OS I T) (acc : ℚ) :
    FakeDetectorTrainer.miniBatchLoop moveI moveT step [] tr acc = .ok tr acc := rfl

theorem miniBatchLoop_cons_noDevice {tr : FakeDetectorTrainer P OS I T}
    (x : I) (y : T) (rest : List (I × T)) (acc : ℚ) (hd : tr.device = none) :
    FakeDetectorTrainer.miniBatchLoop moveI moveT step ((x, y) :: rest) tr acc =
      .exn tr Err.attributeError := by
  unfold FakeDetectorTrainer.miniBatchLoop
  rw [hd]

theorem miniBatchLoop_cons_exn {tr s : FakeDetectorTrainer P OS I T} {d : Device}
    {x : I} {y : T} {e : Err} (rest : List (I × T)) (acc : ℚ)
    (hd : tr.device = some d) (hs : step tr (moveI d x) (moveT d y) = .exn s e) :
    FakeDetectorTrainer.miniBatchLoop moveI moveT step ((x, y) :: rest) tr acc =
      .exn s e := by
  simp only [FakeDetectorTrainer.miniBatchLoop, hd, hs]

theorem miniBatchLoop_cons_ok {tr tr2 : FakeDetectorTrainer P OS I T} {d : Device}
    {x : I} {y : T} {lossVal : ℚ} (rest : List (I × T)) (acc : ℚ)
    (hd : tr.device = some d) (hs : step tr (moveI d x) (moveT d y) = .ok tr2 lossVal) :
    FakeDetectorTrainer.miniBatchLoop moveI moveT step ((x, y) :: rest) tr acc =
      FakeDetectorTrainer.miniBatchLoop moveI moveT step rest tr2 (acc + lossVal) := by
  simp only [FakeDetectorTrainer.miniBatchLoop, hd, hs]

theorem mini_batch_noLoader {tr : FakeDetectorTrainer P OS I T} {validation : Bool}
    (h : (if validation then tr.val_loader else tr.train_loader) = none) :
    FakeDetectorTrainer.mini_batch env tr validation = .ok tr none := by
  unfold FakeDetectorTrainer.mini_batch
  rw [h]

theorem mini_batch_loader {tr : FakeDetectorTrainer P OS I T} {validation : Bool}
    {batches : List (I × T)}
    (h : (if validation then tr.val_loader else tr.train_loader) = some batches) :
    FakeDetectorTrainer.mini_batch env tr validation =
      match FakeDetectorTrainer.miniBatchLoop env.moveI env.moveT
          (if validation then FakeDetectorTrainer.val_step env
           else FakeDetectorTrainer.train_step env) batches tr 0 with
      | .exn s e => .exn s e
      | .ok tr2 total =>
        if batches.length = 0 then .exn tr2 Err.zeroDivisionError
        else .ok tr2 (some (total / (batches.length : ℚ))) := by
  unfold FakeDetectorTrainer.mini_batch
  rw [h]

theorem mini_batch_exn {tr s : FakeDetectorTrainer P OS I T} {validation : Bool}
    {batches : List (I × T)} {e : Err}
    (h : (if validation then tr.val_loader else tr.train_loader) = some batches)
    (hloop : FakeDetectorTrainer.miniBatchLoop env.moveI env.moveT
      (if validation then FakeDetectorTrainer.val_step env
       else FakeDetectorTrainer.train_step env) batches tr 0 = .exn s e) :
    FakeDetectorTrainer.mini_batch env tr validation = .exn s e := by
  rw [mini_batch_loader env h, hloop]

theorem mini_batch_ok {tr tr2 : FakeDetectorTrainer P OS I T} {validation : Bool}
    {batches : List (I × T)} {total : ℚ}
    (h : (if validation then tr.val_loader else tr.train_loader) = some batches)
    (hne : batches ≠ [])
    (hloop : FakeDetectorTrainer.miniBatchLoop env.moveI env.moveT
      (if validation then FakeDetectorTrainer.val_step env
       else FakeDetectorTrainer.train_step env) batches tr 0 = .ok tr2 total) :
    FakeDetectorTrainer.mini_batch env tr validation =
      .ok tr2 (some (total / (batches.length : ℚ))) := by
  rw [mini_batch_loader env h, hloop]
  simp [List.length_eq_zero, hne]

theorem mini_batch_emptyLoader {tr : FakeDetectorTrainer P OS I T} {validation : Bool}
    (h : (if validation then tr.val_loader else tr.train_loader) = some []) :
    FakeDetectorTrainer.mini_batch env tr validation = .exn tr Err.zeroDivisionError := by
  rw [mini_batch_loader env h, miniBatchLoop_nil]
  rfl

end Equations

/-!
### History preservation across the step functions and the batch loop
-/

/-- All fields except the model and the optimizer state agree. -/
def SameHist (tr tr' : FakeDetectorTrainer P OS I T) : Prop :=
  tr'.losses = tr.losses ∧ tr'.val_losses = tr.val_losses ∧
  tr'.total_epochs = tr.total_epochs ∧ tr'.device = tr.device ∧
  tr'.train_loader = tr.train_loader ∧ tr'.val_loader = tr.val_loader ∧
  tr'.writer = tr.writer

theorem SameHist.refl (tr : FakeDetectorTrainer P OS I T) : SameHist tr tr :=
  ⟨rfl, rfl, rfl, rfl, rfl, rfl, rfl⟩

theorem SameHist.trans {a b c : FakeDetectorTrainer P OS I T}
    (h1 : SameHist a b) (h2 : SameHist b c) : SameHist a c := by
  obtain ⟨l1, v1, t1, d1, tl1, vl1, w1⟩ := h1
  obtain ⟨l2, v2, t2, d2, tl2, vl2, w2⟩ := h2
  exact ⟨l2.trans l1, v2.trans v1, t2.trans t1, d2.trans d1,
    tl2.trans tl1, vl2.trans vl1, w2.trans w1⟩

theorem train_step_hist (env : TorchEnv P G OS I T O)
    (tr : FakeDetectorTrainer P OS I T) (x : I) (y : T) :
    SameHist tr ((FakeDetectorTrainer.train_step env tr x y).state) := by
  cases h : env.train_loss_fn (env.forward tr.model.params x) y with
  | error e =>
    rw [train_step_error env h]
    exact ⟨rfl, rfl, rfl, rfl, rfl, rfl, rfl⟩
  | ok q =>
    rw [train_step_value env h]
    exact ⟨rfl, rfl, rfl, rfl, rfl, rfl, rfl⟩

theorem val_step_hist (env : TorchEnv P G OS I T O)
    (tr : FakeDetectorTrainer P OS I T) (x : I) (y : T) :
    SameHist tr ((FakeDetectorTrainer.val_step env tr x y).state) := by
  cases h : env.val_loss_fn (env.forward tr.model.params x) y with
  | error e =>
    rw [val_step_error env h]
    exact ⟨rfl, rfl, rfl, rfl, rfl, rfl, rfl⟩
  | ok q =>
    rw [val_step_value env h]
    exact ⟨rfl, rfl, rfl, rfl, rfl, rfl, rfl⟩

theorem miniBatchLoop_hist (moveI : Device → I → I) (moveT : Device → T → T)
    (step : FakeDetectorTrainer P OS I T → I → T →
      PyResult (FakeDetectorTrainer P OS I T) ℚ)
    (hstep : ∀ tr x y, SameHist tr ((step tr x y).state))
    (bs : List (I × T)) (tr : FakeDetectorTrainer P OS I T) (acc : ℚ) :
    SameHist tr ((FakeDetectorTrainer.miniBatchLoop moveI moveT step bs tr acc).state) := by
  induction bs generalizing tr acc with
  | nil => exact SameHist.refl tr
  | cons b rest ih =>
    obtain ⟨x, y⟩ := b
    cases hd : tr.device with
    | none =>
      rw [miniBatchLoop_cons_noDevice moveI moveT step x y rest acc hd]
      exact SameHist.refl tr
    | some d =>
      have h := hstep tr (moveI d x) (moveT d y)
      cases hs : step tr (moveI d x) (moveT d y) with
      | exn s e =>
        rw [miniBatchLoop_cons_exn moveI moveT step rest acc hd hs]
        rw [hs] at h
        exact h
      | ok tr2 lossVal =>
        rw [miniBatchLoop_cons_ok moveI moveT step rest acc hd hs]
        rw [hs] at h
        exact SameHist.trans h (ih tr2 (acc + lossVal))

theorem mini_batch_hist (env : TorchEnv P G OS I T O)
    (tr : FakeDetectorTrainer P OS I T) (validation : Bool) :
    SameHist tr ((FakeDetectorTrainer.mini_batch env tr validation).state) := by
  cases hl : (if validation then tr.val_loader else tr.train_loader) with
  | none =>
    rw [mini_batch_noLoader env hl]
    exact SameHist.refl tr
  | some batches =>
    have hstep : ∀ tr x y, SameHist tr
        (((if validation then FakeDetectorTrainer.val_step env
           else FakeDetectorTrainer.train_step env) tr x y).state) := by
      intro tr x y
      cases validation with
      | false => exact train_step_hist env tr x y
      | true => exact val_step_hist env tr x y
    have hloop := miniBatchLoop_hist env.moveI env.moveT _ hstep batches tr 0
    rw [mini_batch_loader env hl]
    cases hres : FakeDetectorTrainer.miniBatchLoop env.moveI env.moveT
        (if validation then FakeDetectorTrainer.val_step env
         else FakeDetectorTrainer.train_step env) batches tr 0 with
    | exn s e =>
      rw [hres] at hloop
      exact hloop
    | ok tr2 total =>
      rw [hres] at hloop
      by_cases hz : batches.length = 0
      · simp only [hz, if_true]
        exact hloop
      · simp only [hz, if_false]
        exact hloop

/-!
### The epoch body
-/

section LogEpoch

variable (k : Nat) (a b : Option ℚ) (tr : FakeDetectorTrainer P OS I T)

@[simp] theorem logEpoch_losses :
    (FakeDetectorTrainer.logEpoch k a b tr).losses = tr.losses := by
  cases hw : tr.writer <;> simp [FakeDetectorTrainer.logEpoch, hw]

@[simp] theorem logEpoch_val_losses :
    (FakeDetectorTrainer.logEpoch k a b tr).val_losses = tr.val_losses := by
  cases hw : tr.writer <;> simp [FakeDetectorTrainer.logEpoch, hw]

@[simp] theorem logEpoch_total_epochs :
    (FakeDetectorTrainer.logEpoch k a b tr).total_epochs = tr.total_epochs := by
  cases hw : tr.writer <;> simp [FakeDetectorTrainer.logEpoch, hw]

@[simp] theorem logEpoch_device :
    (FakeDetectorTrainer.logEpoch k a b tr).device = tr.device := by
  cases hw : tr.writer <;> simp [FakeDetectorTrainer.logEpoch, hw]

@[simp] theorem logEpoch_train_loader :
    (FakeDetectorTrainer.logEpoch k a b tr).train_loader = tr.train_loader := by
  cases hw : tr.writer <;> simp [FakeDetectorTrainer.logEpoch, hw]

@[simp] theorem logEpoch_val_loader :
    (FakeDetectorTrainer.logEpoch k a b tr).val_loader = tr.val_loader := by
  cases hw : tr.writer <;> simp [FakeDetectorTrainer.logEpoch, hw]

@[simp] theorem logEpoch_model :
    (FakeDetectorTrainer.logEpoch k a b tr).model = tr.model := by
  cases hw : tr.writer <;> simp [FakeDetectorTrainer.logEpoch, hw]

@[simp] theorem logEpoch_optimizerState :
    (FakeDetectorTrainer.logEpoch k a b tr).optimizerState = tr.optimizerState := by
  cases hw : tr.writer <;> simp [FakeDetectorTrainer.logEpoch, hw]

theorem logEpoch_writer :
    (FakeDetectorTrainer.logEpoch k a b tr).writer = tr.writer.map (fun w =>
      { w with events := w.events ++
          [{ tag := k, trainValue := a, valValue := truthyFilter b }] }) := by
  cases hw : tr.writer <;> simp [FakeDetectorTrainer.logEpoch, hw]

end LogEpoch

theorem epoch_body_exn_train (env : TorchEnv P G OS I T O) {k : Nat}
    {tr s : FakeDetectorTrainer P OS I T} {e : Err}
    (h1 : FakeDetectorTrainer.mini_batch env
      { tr with total_epochs := tr.total_epochs + 1 } false = .exn s e) :
    FakeDetectorTrainer.epoch_body env k tr = .exn s e := by
  simp only [FakeDetectorTrainer.epoch_body, h1]

theorem epoch_body_exn_val (env : TorchEnv P G OS I T O) {k : Nat}
    {tr tr2 s : FakeDetectorTrainer P OS I T} {tl : Option ℚ} {e : Err}
    (h1 : FakeDetectorTrainer.mini_batch env
      { tr with total_epochs := tr.total_epochs + 1 } false = .ok tr2 tl)
    (h2 : FakeDetectorTrainer.mini_batch env
      { tr2 with losses := tr2.losses ++ [tl] } true = .exn s e) :
    FakeDetectorTrainer.epoch_body env k tr = .exn s e := by
  simp only [FakeDetectorTrainer.epoch_body, h1, h2]

theorem epoch_body_ok_eq (env : TorchEnv P G OS I T O) {k : Nat}
    {tr tr2 tr4 : FakeDetectorTrainer P OS I T} {tl vl : Option ℚ}
    (h1 : FakeDetectorTrainer.mini_batch env
      { tr with total_epochs := tr.total_epochs + 1 } false = .ok tr2 tl)
    (h2 : FakeDetectorTrainer.mini_batch env
      { tr2 with losses := tr2.losses ++ [tl] } true = .ok tr4 vl) :
    FakeDetectorTrainer.epoch_body env k tr =
      .ok (FakeDetectorTrainer.logEpoch k tl vl
        { tr4 with val_losses := tr4.val_losses ++ [vl] }) () := by
  simp only [FakeDetectorTrainer.epoch_body, h1, h2]

/-- What one successfully completed epoch does to the observable trainer
state: exactly one entry is appended to each history, `total_epochs` grows
by one, device and loaders are untouched, the writer (if any) receives
exactly one tagged emission, and a missing validation loader makes the new
validation entry the absent sentinel. -/
theorem epoch_body_ok {env : TorchEnv P G OS I T O} {k : Nat}
    {tr tr' : FakeDetectorTrainer P OS I T}
    (h : FakeDetectorTrainer.epoch_body env k tr = .ok tr' ()) :
    ∃ tl vl : Option ℚ,
      tr'.losses = tr.losses ++ [tl] ∧
      tr'.val_losses = tr.val_losses ++ [vl] ∧
      tr'.total_epochs = tr.total_epochs + 1 ∧
      tr'.device = tr.device ∧
      tr'.train_loader = tr.train_loader ∧
      tr'.val_loader = tr.val_loader ∧
      tr'.writer = tr.writer.map (fun w =>
        { w with events := w.events ++
            [{ tag := k, trainValue := tl, valValue := truthyFilter vl }] }) ∧
      (tr.val_loader = none → vl = none) := by
  have h1h := mini_batch_hist env { tr with total_epochs := tr.total_epochs + 1 } false
  cases h1 : FakeDetectorTrainer.mini_batch env
      { tr with total_epochs := tr.total_epochs + 1 } false with
  | exn s e =>
    rw [epoch_body_exn_train env h1] at h
    simp at h
  | ok tr2 tl =>
    rw [h1] at h1h
    obtain ⟨L1, V1, T1, D1, TL1, VL1, W1⟩ := h1h
    have h2h := mini_batch_hist env { tr2 with losses := tr2.losses ++ [tl] } true
    cases h2 : FakeDetectorTrainer.mini_batch env
        { tr2 with losses := tr2.losses ++ [tl] } true with
    | exn s e =>
      rw [epoch_body_exn_val env h1 h2] at h
      simp at h
    | ok tr4 vl =>
      rw [h2] at h2h
      obtain ⟨L2, V2, T2, D2, TL2, VL2, W2⟩ := h2h
      rw [epoch_body_ok_eq env h1 h2] at h
      have htr' : tr' = FakeDetectorTrainer.logEpoch k tl vl
          { tr4 with val_losses := tr4.val_losses ++ [vl] } := by
        cases h
        rfl
      subst htr'
      have hvlnone : tr.val_loader = none → vl = none := by
        intro hn
        have hval3 : (if true then
            ({ tr2 with losses := tr2.losses ++ [tl] } :
              FakeDetectorTrainer P OS I T).val_loader
          else ({ tr2 with losses := tr2.losses ++ [tl] } :
              FakeDetectorTrainer P OS I T).train_loader) = none := by
          show tr2.val_loader = none
          simp_all
        have habs := mini_batch_noLoader env hval3
        rw [h2] at habs
        cases habs
        rfl
      refine ⟨tl, vl, ?_, ?_, ?_, ?_, ?_, ?_, ?_, hvlnone⟩ <;>
        simp_all [logEpoch_writer]

/-- What a failed epoch leaves behind: `total_epochs` was already
incremented for the failed epoch, the validation history is untouched, the
training history gained at most the failed epoch's training entry (exactly
when the failure happened in the validation pass), and device, loaders and
writer are untouched. -/
theorem epoch_body_exn {env : TorchEnv P G OS I T O} {k : Nat}
    {tr s : FakeDetectorTrainer P OS I T} {e : Err}
    (h : FakeDetectorTrainer.epoch_body env k tr = .exn s e) :
    s.total_epochs = tr.total_epochs + 1 ∧
    s.val_losses = tr.val_losses ∧
    (s.losses = tr.losses ∨ ∃ tl, s.losses = tr.losses ++ [tl]) ∧
    s.device = tr.device ∧
    s.train_loader = tr.train_loader ∧
    s.val_loader = tr.val_loader ∧
    s.writer = tr.writer := by
  have h1h := mini_batch_hist env { tr with total_epochs := tr.total_epochs + 1 } false
  cases h1 : FakeDetectorTrainer.mini_batch env
      { tr with total_epochs := tr.total_epochs + 1 } false with
  | exn s1 e1 =>
    rw [epoch_body_exn_train env h1] at h
    rw [h1] at h1h
    obtain ⟨L1, V1, T1, D1, TL1, VL1, W1⟩ := h1h
    cases h
    refine ⟨?_, ?_, Or.inl ?_, ?_, ?_, ?_, ?_⟩ <;> simp_all
  | ok tr2 tl =>
    rw [h1] at h1h
    obtain ⟨L1, V1, T1, D1, TL1, VL1, W1⟩ := h1h
    have h2h := mini_batch_hist env { tr2 with losses := tr2.losses ++ [tl] } true
    cases h2 : FakeDetectorTrainer.mini_batch env
        { tr2 with losses := tr2.losses ++ [tl] } true with
    | exn s2 e2 =>
      rw [epoch_body_exn_val env h1 h2] at h
      rw [h2] at h2h
      obtain ⟨L2, V2, T2, D2, TL2, VL2, W2⟩ := h2h
      cases h
      refine ⟨?_, ?_, Or.inr ⟨tl, ?_⟩, ?_, ?_, ?_, ?_⟩ <;> simp_all
    | ok tr4 vl =>
      rw [epoch_body_ok_eq env h1 h2] at h
      simp at h

/-!
### The epoch loop and `train`
-/

/-- The scalar emissions a `train` call starting at loop index `k` produces,
given the per-epoch train and validation losses it appends. -/
def writerEvents : Nat → List (Option ℚ) → List (Option ℚ) → List ScalarEvent
  | k, tl :: tls, vl :: vls =>
    { tag := k, trainValue := tl, valValue := truthyFilter vl } ::
      writerEvents (k + 1) tls vls
  | _, _, _ => []

theorem train_loop_zero (env : TorchEnv P G OS I T O) (k : Nat)
    (tr : FakeDetectorTrainer P OS I T) :
    FakeDetectorTrainer.train_loop env k 0 tr = .ok tr () := rfl

theorem train_loop_succ_exn (env : TorchEnv P G OS I T O) {k n : Nat}
    {tr s : FakeDetectorTrainer P OS I T} {e : Err}
    (h : FakeDetectorTrainer.epoch_body env k tr = .exn s e) :
    FakeDetectorTrainer.train_loop env k (n + 1) tr = .exn s e := by
  simp only [FakeDetectorTrainer.train_loop, h]

theorem train_loop_succ_ok (env : TorchEnv P G OS I T O) {k n : Nat}
    {tr tr2 : FakeDetectorTrainer P OS I T}
    (h : FakeDetectorTrainer.epoch_body env k tr = .ok tr2 ()) :
    FakeDetectorTrainer.train_loop env k (n + 1) tr =
      FakeDetectorTrainer.train_loop env (k + 1) n tr2 := by
  simp only [FakeDetectorTrainer.train_loop, h]

/-- What a successfully completed epoch loop does to the observable state:
one history entry per epoch on each side, `total_epochs` grows by the epoch
count, device and loaders are untouched, the writer receives one emission
per epoch, and without a validation loader every appended validation entry
is the absent sentinel. -/
theorem train_loop_ok {env : TorchEnv P G OS I T O} :
    ∀ {n k : Nat} {tr tr' : FakeDetectorTrainer P OS I T},
    FakeDetectorTrainer.train_loop env k n tr = .ok tr' () →
    ∃ tls vls : List (Option ℚ),
      tls.length = n ∧ vls.length = n ∧
      tr'.losses = tr.losses ++ tls ∧
      tr'.val_losses = tr.val_losses ++ vls ∧
      tr'.total_epochs = tr.total_epochs + n ∧
      tr'.device = tr.device ∧
      tr'.train_loader = tr.train_loader ∧
      tr'.val_loader = tr.val_loader ∧
      tr'.writer = tr.writer.map (fun w =>
        { w with events := w.events ++ writerEvents k tls vls }) ∧
      (tr.val_loader = none → vls = List.replicate n none) := by
  intro n
  induction n with
  | zero =>
    intro k tr tr' h
    rw [train_loop_zero] at h
    cases h
    refine ⟨[], [], rfl, rfl, ?_, ?_, ?_, rfl, rfl, rfl, ?_, fun _ => rfl⟩
    · simp
    · simp
    · simp
    · cases hw : tr.writer <;> simp [writerEvents, hw]
  | succ n ih =>
    intro k tr tr' h
    cases hb : FakeDetectorTrainer.epoch_body env k tr with
    | exn s e =>
      rw [train_loop_succ_exn env hb] at h
      simp at h
    | ok tr2 u =>
      cases u
      rw [train_loop_succ_ok env hb] at h
      obtain ⟨tl, vl, bL, bV, bT, bD, bTL, bVL, bW, bN⟩ := epoch_body_ok hb
      obtain ⟨tls, vls, hlen1, hlen2, L, V, Tt, D, TL, VL, W, N⟩ := ih h
      refine ⟨tl :: tls, vl :: vls, by simp [hlen1], by simp [hlen2],
        ?_, ?_, ?_, ?_, ?_, ?_, ?_, ?_⟩
      · rw [L, bL]
        simp
      · rw [V, bV]
        simp
      · rw [Tt, bT]
        omega
      · rw [D, bD]
      · rw [TL, bTL]
      · rw [VL, bVL]
      · rw [W, bW]
        cases hw : tr.writer with
        | none => simp
        | some w => simp [writerEvents, List.append_assoc]
      · intro hn
        have hvl : vl = none := bN hn
        have hvls : vls = List.replicate n none := N (by rw [bVL, hn])
        rw [hvl, hvls]
        simp [List.replicate_succ]

section FlushWriter

variable (tr : FakeDetectorTrainer P OS I T)

@[simp] theorem flush_writer_losses :
    (FakeDetectorTrainer.flush_writer tr).losses = tr.losses := by
  cases hw : tr.writer <;> simp [FakeDetectorTrainer.flush_writer, hw]

@[simp] theorem flush_writer_val_losses :
    (FakeDetectorTrainer.flush_writer tr).val_losses = tr.val_losses := by
  cases hw : tr.writer <;> simp [FakeDetectorTrainer.flush_writer, hw]

@[simp] theorem flush_writer_total_epochs :
    (FakeDetectorTrainer.flush_writer tr).total_epochs = tr.total_epochs := by
  cases hw : tr.writer <;> simp [FakeDetectorTrainer.flush_writer, hw]

@[simp] theorem flush_writer_device :
    (FakeDetectorTrainer.flush_writer tr).device = tr.device := by
  cases hw : tr.writer <;> simp [FakeDetectorTrainer.flush_writer, hw]

@[simp] theorem flush_writer_train_loader :
    (FakeDetectorTrainer.flush_writer tr).train_loader = tr.train_loader := by
  cases hw : tr.writer <;> simp [FakeDetectorTrainer.flush_writer, hw]

@[simp] theorem flush_writer_val_loader :
    (FakeDetectorTrainer.flush_writer tr).val_loader = tr.val_loader := by
  cases hw : tr.writer <;> simp [FakeDetectorTrainer.flush_writer, hw]

@[simp] theorem flush_writer_model :
    (FakeDetectorTrainer.flush_writer tr).model = tr.model := by
  cases hw : tr.writer <;> simp [FakeDetectorTrainer.flush_writer, hw]

@[simp] theorem flush_writer_optimizerState :
    (FakeDetectorTrainer.flush_writer tr).optimizerState = tr.optimizerState := by
  cases hw : tr.writer <;> simp [FakeDetectorTrainer.flush_writer, hw]

theorem flush_writer_writer :
    (FakeDetectorTrainer.flush_writer tr).writer =
      tr.writer.map (fun w => { w with flushed := true }) := by
  cases hw : tr.writer <;> simp [FakeDetectorTrainer.flush_writer, hw]

end FlushWriter

theorem train_eq_exn (env : TorchEnv P G OS I T O) {n : Nat}
    {tr s : FakeDetectorTrainer P OS I T} {e : Err}
    (h : FakeDetectorTrainer.train_loop env 0 n tr = .exn s e) :
    FakeDetectorTrainer.train env tr n = .exn s e := by
  simp only [FakeDetectorTrainer.train, h]

theorem train_eq_ok (env : TorchEnv P G OS I T O) {n : Nat}
    {tr tr2 : FakeDetectorTrainer P OS I T}
    (h : FakeDetectorTrainer.train_loop env 0 n tr = .ok tr2 ()) :
    FakeDetectorTrainer.train env tr n =
      .ok (FakeDetectorTrainer.flush_writer tr2) () := by
  simp only [FakeDetectorTrainer.train, h]

/-- Master description of a successful `train` call. -/
theorem train_ok {env : TorchEnv P G OS I T O} {n : Nat}
    {tr tr' : FakeDetectorTrainer P OS I T}
    (h : FakeDetectorTrainer.train env tr n = .ok tr' ()) :
    ∃ tls vls : List (Option ℚ),
      tls.length = n ∧ vls.length = n ∧
      tr'.losses = tr.losses ++ tls ∧
      tr'.val_losses = tr.val_losses ++ vls ∧
      tr'.total_epochs = tr.total_epochs + n ∧
      tr'.device = tr.device ∧
      tr'.train_loader = tr.train_loader ∧
      tr'.val_loader = tr.val_loader ∧
      tr'.writer = tr.writer.map (fun w =>
        { w with events := w.events ++ writerEvents 0 tls vls,
                 flushed := true }) ∧
      (tr.val_loader = none → vls = List.replicate n none) := by
  cases hl : FakeDetectorTrainer.train_loop env 0 n tr with
  | exn s e =>
    rw [train_eq_exn env hl] at h
    simp at h
  | ok tr2 u =>
    cases u
    rw [train_eq_ok env hl] at h
    cases h
    obtain ⟨tls, vls, hlen1, hlen2, L, V, Tt, D, TL, VL, W, N⟩ := train_loop_ok hl
    refine ⟨tls, vls, hlen1, hlen2, ?_, ?_, ?_, ?_, ?_, ?_, ?_, N⟩
    · simpa using L
    · simpa using V
    · simpa using Tt
    · simpa using D
    · simpa using TL
    · simpa using VL
    · rw [flush_writer_writer, W]
      cases hw : tr.writer <;> simp

/-- What a failed epoch loop leaves behind, in terms of the number of fully
completed epochs before the failure. -/
theorem train_loop_exn {env : TorchEnv P G OS I T O} :
    ∀ {n k : Nat} {tr s : FakeDetectorTrainer P OS I T} {e : Err},
    FakeDetectorTrainer.train_loop env k n tr = .exn s e →
    ∃ completed, completed < n ∧
      s.total_epochs = tr.total_epochs + completed + 1 ∧
      s.val_losses.length = tr.val_losses.length + completed ∧
      (s.losses.length = tr.losses.length + completed ∨
        s.losses.length = tr.losses.length + completed + 1) ∧
      s.device = tr.device ∧
      s.train_loader = tr.train_loader ∧
      s.val_loader = tr.val_loader := by
  intro n
  induction n with
  | zero =>
    intro k tr s e h
    rw [train_loop_zero] at h
    cases h
  | succ n ih =>
    intro k tr s e h
    cases hb : FakeDetectorTrainer.epoch_body env k tr with
    | exn s1 e1 =>
      rw [train_loop_succ_exn env hb] at h
      cases h
      obtain ⟨bT, bV, bL, bD, bTL, bVL, _⟩ := epoch_body_exn hb
      refine ⟨0, by omega, by omega, by rw [bV]; omega, ?_, bD, bTL, bVL⟩
      cases bL with
      | inl hl => exact Or.inl (by rw [hl]; omega)
      | inr hr =>
        obtain ⟨tl, hl⟩ := hr
        exact Or.inr (by rw [hl]; simp)
    | ok tr2 u =>
      cases u
      rw [train_loop_succ_ok env hb] at h
      obtain ⟨bL, bVl, hrest⟩ := epoch_body_ok hb
      obtain ⟨hbL, hbV, hbT, hbD, hbTL, hbVL, _, _⟩ := hrest
      obtain ⟨j, hj, jT, jV, jL, jD, jTL, jVL⟩ := ih h
      refine ⟨j + 1, by omega, by rw [jT, hbT]; omega,
        by rw [jV, hbV]; simp; omega, ?_,
        by rw [jD, hbD], by rw [jTL, hbTL], by rw [jVL, hbVL]⟩
      cases jL with
      | inl hl =>
        exact Or.inl (by rw [hl, hbL]; simp; omega)
      | inr hr =>
        exact Or.inr (by rw [hr, hbL]; simp; omega)

/-- What a failed `train` call leaves behind. -/
theorem train_exn {env : TorchEnv P G OS I T O} {n : Nat}
    {tr s : FakeDetectorTrainer P OS I T} {e : Err}
    (h : FakeDetectorTrainer.train env tr n = .exn s e) :
    ∃ completed, completed < n ∧
      s.total_epochs = tr.total_epochs + completed + 1 ∧
      s.val_losses.length = tr.val_losses.length + completed ∧
      (s.losses.length = tr.losses.length + completed ∨
        s.losses.length = tr.losses.length + completed + 1) ∧
      s.device = tr.device ∧
      s.train_loader = tr.train_loader ∧
      s.val_loader = tr.val_loader := by
  cases hl : FakeDetectorTrainer.train_loop env 0 n tr with
  | exn s1 e1 =>
    rw [train_eq_exn env hl] at h
    cases h
    exact train_loop_exn hl
  | ok tr2 u =>
    cases u
    rw [train_eq_ok env hl] at h
    simp at h

/-!
### Reference description of one data pass (for the averaging claim)

`specBatchLosses` follows the specification's wording for `run_pass`: visit
every batch of the source exactly once, in the source's order, move it to
the bound device, invoke the step function on it, and collect the returned
scalar of each batch.  Relating it to `miniBatchLoop` shows the code's
accumulator to be the plain sum of the per-batch scalars.
-/

def specBatchLosses (moveI : Device → I → I) (moveT : Device → T → T)
    (step : FakeDetectorTrainer P OS I T → I → T →
      PyResult (FakeDetectorTrainer P OS I T) ℚ) :
    List (I × T) → FakeDetectorTrainer P OS I T →
      PyResult (FakeDetectorTrainer P OS I T) (List ℚ)
  | [], tr => .ok tr []
  | (x, y) :: rest, tr =>
    match tr.device with
    | none => .exn tr Err.attributeError
    | some d =>
      match step tr (moveI d x) (moveT d y) with
      | .exn s e => .exn s e
      | .ok tr2 lossVal =>
        match specBatchLosses moveI moveT step rest tr2 with
        | .exn s e => .exn s e
        | .ok tr3 ls => .ok tr3 (lossVal :: ls)

theorem specBatchLosses_cons_ok {moveI : Device → I → I} {moveT : Device → T → T}
    {step : FakeDetectorTrainer P OS I T → I → T →
      PyResult (FakeDetectorTrainer P OS I T) ℚ}
    {tr tr2 tr3 : FakeDetectorTrainer P OS I T} {d : Device} {x : I} {y : T}
    {lossVal : ℚ} {rest : List (I × T)} {ls : List ℚ}
    (hd : tr.device = some d)
    (hs : step tr (moveI d x) (moveT d y) = .ok tr2 lossVal)
    (hrec : specBatchLosses moveI moveT step rest tr2 = .ok tr3 ls) :
    specBatchLosses moveI moveT step ((x, y) :: rest) tr = .ok tr3 (lossVal :: ls) := by
  simp only [specBatchLosses, hd, hs, hrec]

/-- The code's accumulated total is the sum of the reference per-batch loss
sequence, which has exactly one entry per batch. -/
theorem miniBatchLoop_spec {moveI : Device → I → I} {moveT : Device → T → T}
    {step : FakeDetectorTrainer P OS I T → I → T →
      PyResult (FakeDetectorTrainer P OS I T) ℚ} :
    ∀ {bs : List (I × T)} {tr tr' : FakeDetectorTrainer P OS I T} {acc total : ℚ},
    FakeDetectorTrainer.miniBatchLoop moveI moveT step bs tr acc = .ok tr' total →
    ∃ ls : List ℚ,
      specBatchLosses moveI moveT step bs tr = .ok tr' ls ∧
      total = acc + ls.sum ∧ ls.length = bs.length := by
  intro bs
  induction bs with
  | nil =>
    intro tr tr' acc total h
    rw [miniBatchLoop_nil] at h
    cases h
    exact ⟨[], rfl, by simp, rfl⟩
  | cons b rest ih =>
    intro tr tr' acc total h
    obtain ⟨x, y⟩ := b
    cases hd : tr.device with
    | none =>
      rw [miniBatchLoop_cons_noDevice moveI moveT step x y rest acc hd] at h
      cases h
    | some d =>
      cases hs : step tr (moveI d x) (moveT d y) with
      | exn s e =>
        rw [miniBatchLoop_cons_exn moveI moveT step rest acc hd hs] at h
        cases h
      | ok tr2 lossVal =>
        rw [miniBatchLoop_cons_ok moveI moveT step rest acc hd hs] at h
        obtain ⟨ls, hspec, hsum, hlen⟩ := ih h
        exact ⟨lossVal :: ls, specBatchLosses_cons_ok hd hs hspec,
          by rw [hsum, List.sum_cons]; ring, by simp [hlen]⟩

/-!
### Parameter evolution of the training pass (for the no-validation claim)
-/

/-- The parameter/optimizer-state update one training pass performs, batch
by batch: move the batch to the device, differentiate the training loss and
apply one optimizer step. -/
def trainPassUpdate (env : TorchEnv P G OS I T O) (d : Device)
    (bs : List (I × T)) (po : P × OS) : P × OS :=
  bs.foldl (fun po b =>
    ((env.optStep po.2 po.1
        (env.backward po.1 (env.moveI d b.1) (env.moveT d b.2))).2,
     (env.optStep po.2 po.1
        (env.backward po.1 (env.moveI d b.1) (env.moveT d b.2))).1)) po

theorem miniBatchLoop_train_params {env : TorchEnv P G OS I T O} {d : Device} :
    ∀ {bs : List (I × T)} {tr tr' : FakeDetectorTrainer P OS I T} {acc total : ℚ},
    tr.device = some d →
    FakeDetectorTrainer.miniBatchLoop env.moveI env.moveT
      (FakeDetectorTrainer.train_step env) bs tr acc = .ok tr' total →
    (tr'.model.params, tr'.optimizerState) =
      trainPassUpdate env d bs (tr.model.params, tr.optimizerState) := by
  intro bs
  induction bs with
  | nil =>
    intro tr tr' acc total _ h
    rw [miniBatchLoop_nil] at h
    cases h
    rfl
  | cons b rest ih =>
    intro tr tr' acc total hd h
    obtain ⟨x, y⟩ := b
    cases hloss : env.train_loss_fn
        (env.forward tr.model.params (env.moveI d x)) (env.moveT d y) with
    | error e =>
      rw [miniBatchLoop_cons_exn env.moveI env.moveT _ rest acc hd
        (train_step_error env hloss)] at h
      cases h
    | ok q =>
      rw [miniBatchLoop_cons_ok env.moveI env.moveT _ rest acc hd
        (train_step_value env hloss)] at h
      have hd2 : ({ tr with
          optimizerState := (env.optStep tr.optimizerState tr.model.params
            (env.backward tr.model.params (env.moveI d x) (env.moveT d y))).1,
          model := { tr.model with
            mode := Mode.training,
            params := (env.optStep tr.optimizerState tr.model.params
              (env.backward tr.model.params (env.moveI d x) (env.moveT d y))).2 } } :
          FakeDetectorTrainer P OS I T).device = some d := hd
      have := ih hd2 h
      rw [this]
      simp [trainPassUpdate]

theorem miniBatchLoop_val_params {env : TorchEnv P G OS I T O} :
    ∀ {bs : List (I × T)} {tr tr' : FakeDetectorTrainer P OS I T} {acc total : ℚ},
    FakeDetectorTrainer.miniBatchLoop env.moveI env.moveT
      (FakeDetectorTrainer.val_step env) bs tr acc = .ok tr' total →
    tr'.model.params = tr.model.params ∧ tr'.optimizerState = tr.optimizerState := by
  intro bs
  induction bs with
  | nil =>
    intro tr tr' acc total h
    rw [miniBatchLoop_nil] at h
    cases h
    exact ⟨rfl, rfl⟩
  | cons b rest ih =>
    intro tr tr' acc total h
    obtain ⟨x, y⟩ := b
    cases hd : tr.device with
    | none =>
      rw [miniBatchLoop_cons_noDevice env.moveI env.moveT _ x y rest acc hd] at h
      cases h
    | some d =>
      cases hloss : env.val_loss_fn
          (env.forward tr.model.params (env.moveI d x)) (env.moveT d y) with
      | error e =>
        rw [miniBatchLoop_cons_exn env.moveI env.moveT _ rest acc hd
          (val_step_error env hloss)] at h
        cases h
      | ok q =>
        rw [miniBatchLoop_cons_ok env.moveI env.moveT _ rest acc hd
          (val_step_value env hloss)] at h
        obtain ⟨hp, ho⟩ := ih h
        exact ⟨hp, ho⟩

/-- Inversion for a mini-batch pass that returned normally over a bound
loader: the loop returned the accumulated total, the result is the total
divided by the batch count, and the loader was non-empty. -/
theorem mini_batch_ok_inv {env : TorchEnv P G OS I T O}
    {tr tr2 : FakeDetectorTrainer P OS I T} {validation : Bool}
    {batches : List (I × T)} {r : Option ℚ}
    (hloader : (if validation then tr.val_loader else tr.train_loader) = some batches)
    (h : FakeDetectorTrainer.mini_batch env tr validation = .ok tr2 r) :
    ∃ total : ℚ,
      FakeDetectorTrainer.miniBatchLoop env.moveI env.moveT
        (if validation then FakeDetectorTrainer.val_step env
         else FakeDetectorTrainer.train_step env) batches tr 0 = .ok tr2 total ∧
      r = some (total / (batches.length : ℚ)) ∧ batches ≠ [] := by
  rw [mini_batch_loader env hloader] at h
  cases hres : FakeDetectorTrainer.miniBatchLoop env.moveI env.moveT
      (if validation then FakeDetectorTrainer.val_step env
       else FakeDetectorTrainer.train_step env) batches tr 0 with
  | exn s e =>
    rw [hres] at h
    simp at h
  | ok tr0 total =>
    rw [hres] at h
    by_cases hz : batches.length = 0
    · simp only [hz, if_true] at h
      simp at h
    · simp only [hz, if_false] at h
      cases h
      exact ⟨total, rfl, rfl, by simpa [List.length_eq_zero] using hz⟩

/-- Across one successfully completed epoch, the model parameters and the
optimizer state evolve exactly by the training pass; the validation pass
(present or absent) and the emission change neither. -/
theorem epoch_body_params {env : TorchEnv P G OS I T O} {k : Nat}
    {tr tr' : FakeDetectorTrainer P OS I T} {d : Device} {bs : List (I × T)}
    (hd : tr.device = some d) (hl : tr.train_loader = some bs)
    (h : FakeDetectorTrainer.epoch_body env k tr = .ok tr' ()) :
    (tr'.model.params, tr'.optimizerState) =
      trainPassUpdate env d bs (tr.model.params, tr.optimizerState) := by
  cases h1 : FakeDetectorTrainer.mini_batch env
      { tr with total_epochs := tr.total_epochs + 1 } false with
  | exn s e =>
    rw [epoch_body_exn_train env h1] at h
    simp at h
  | ok tr2 tl =>
    have hl1 : (if false then
        ({ tr with total_epochs := tr.total_epochs + 1 } :
          FakeDetectorTrainer P OS I T).val_loader
      else ({ tr with total_epochs := tr.total_epochs + 1 } :
          FakeDetectorTrainer P OS I T).train_loader) = some bs := hl
    obtain ⟨total1, hloop1, _, _⟩ := mini_batch_ok_inv hl1 h1
    have hloop1' : FakeDetectorTrainer.miniBatchLoop env.moveI env.moveT
        (FakeDetectorTrainer.train_step env) bs
        { tr with total_epochs := tr.total_epochs + 1 } 0 = .ok tr2 total1 := hloop1
    have hd1 : ({ tr with total_epochs := tr.total_epochs + 1 } :
        FakeDetectorTrainer P OS I T).device = some d := hd
    have hparams1 := miniBatchLoop_train_params (d := d) hd1 hloop1'
    have h1h := mini_batch_hist env { tr with total_epochs := tr.total_epochs + 1 } false
    rw [h1] at h1h
    obtain ⟨_, _, _, D1, _, VL1, _⟩ := h1h
    cases h2 : FakeDetectorTrainer.mini_batch env
        { tr2 with losses := tr2.losses ++ [tl] } true with
    | exn s e =>
      rw [epoch_body_exn_val env h1 h2] at h
      simp at h
    | ok tr4 vl =>
      rw [epoch_body_ok_eq env h1 h2] at h
      have htr' : tr' = FakeDetectorTrainer.logEpoch k tl vl
          { tr4 with val_losses := tr4.val_losses ++ [vl] } := by
        cases h
        rfl
      subst htr'
      have hparams4 : tr4.model.params = tr2.model.params ∧
          tr4.optimizerState = tr2.optimizerState := by
        cases hvl : tr2.val_loader with
        | none =>
          have hv3 : (if true then
              ({ tr2 with losses := tr2.losses ++ [tl] } :
                FakeDetectorTrainer P OS I T).val_loader
            else ({ tr2 with losses := tr2.losses ++ [tl] } :
                FakeDetectorTrainer P OS I T).train_loader) = none := by
            simpa using hvl
          have habs := mini_batch_noLoader env hv3
          rw [h2] at habs
          cases habs
          exact ⟨rfl, rfl⟩
        | some vbs =>
          have hv3 : (if true then
              ({ tr2 with losses := tr2.losses ++ [tl] } :
                FakeDetectorTrainer P OS I T).val_loader
            else ({ tr2 with losses := tr2.losses ++ [tl] } :
                FakeDetectorTrainer P OS I T).train_loader) = some vbs := by
            simpa using hvl
          obtain ⟨total2, hloop2, _, _⟩ := mini_batch_ok_inv hv3 h2
          have hloop2' : FakeDetectorTrainer.miniBatchLoop env.moveI env.moveT
              (FakeDetectorTrainer.val_step env) vbs
              { tr2 with losses := tr2.losses ++ [tl] } 0 = .ok tr4 total2 := hloop2
          obtain ⟨hp, ho⟩ := miniBatchLoop_val_params hloop2'
          exact ⟨hp, ho⟩
      obtain ⟨hp4, ho4⟩ := hparams4
      simp only [logEpoch_model, logEpoch_optimizerState]
      show (tr4.model.params, tr4.optimizerState) = _
      rw [hp4, ho4]
      simpa using hparams1

/-- Parameter evolution across a successfully completed epoch loop. -/
theorem train_loop_params {env : TorchEnv P G OS I T O} {d : Device}
    {bs : List (I × T)} :
    ∀ {n k : Nat} {tr tr' : FakeDetectorTrainer P OS I T},
    tr.device = some d → tr.train_loader = some bs →
    FakeDetectorTrainer.train_loop env k n tr = .ok tr' () →
    (tr'.model.params, tr'.optimizerState) =
      (trainPassUpdate env d bs)^[n] (tr.model.params, tr.optimizerState) := by
  intro n
  induction n with
  | zero =>
    intro k tr tr' _ _ h
    rw [train_loop_zero] at h
    cases h
    rfl
  | succ n ih =>
    intro k tr tr' hd hl h
    cases hb : FakeDetectorTrainer.epoch_body env k tr with
    | exn s e =>
      rw [train_loop_succ_exn env hb] at h
      simp at h
    | ok tr2 u =>
      cases u
      rw [train_loop_succ_ok env hb] at h
      obtain ⟨_, _, hrest⟩ := epoch_body_ok hb
      obtain ⟨_, _, _, hbD, hbTL, _, _, _⟩ := hrest
      have hparams := epoch_body_params hd hl hb
      have hdm : tr2.device = some d := by rw [hbD]; exact hd
      have hlm : tr2.train_loader = some bs := by rw [hbTL]; exact hl
      have ihres := ih hdm hlm h
      rw [ihres, hparams, Function.iterate_succ_apply]

/-- Parameter evolution across a successful `train` call. -/
theorem train_params {env : TorchEnv P G OS I T O} {n : Nat}
    {tr tr' : FakeDetectorTrainer P OS I T} {d : Device} {bs : List (I × T)}
    (hd : tr.device = some d) (hl : tr.train_loader = some bs)
    (h : FakeDetectorTrainer.train env tr n = .ok tr' ()) :
    (tr'.model.params, tr'.optimizerState) =
      (trainPassUpdate env d bs)^[n] (tr.model.params, tr.optimizerState) := by
  cases hloop : FakeDetectorTrainer.train_loop env 0 n tr with
  | exn s e =>
    rw [train_eq_exn env hloop] at h
    simp at h
  | ok tr2 u =>
    cases u
    rw [train_eq_ok env hloop] at h
    cases h
    have := train_loop_params hd hl hloop
    simpa using this

/-!
### Prediction, checkpointing and call series
-/

theorem predict_some (env : TorchEnv P G OS I T O)
    {tr : FakeDetectorTrainer P OS I T} {d : Device} (x : I)
    (hd : tr.device = some d) :
    FakeDetectorTrainer.predict env tr x =
      .ok { tr with model := { tr.model with mode := Mode.evaluation } }
        (env.forward tr.model.params (env.moveI d x)) := by
  simp only [FakeDetectorTrainer.predict, hd]

theorem predict_noDevice (env : TorchEnv P G OS I T O)
    {tr : FakeDetectorTrainer P OS I T} (x : I) (hd : tr.device = none) :
    FakeDetectorTrainer.predict env tr x =
      .exn { tr with model := { tr.model with mode := Mode.evaluation } }
        Err.attributeError := by
  simp only [FakeDetectorTrainer.predict, hd]

theorem torch_load_save (fs : FileSystem P OS) (c : Checkpoint P OS) (path : String) :
    torch_load (torch_save fs c path) path = some c := by
  simp [torch_save, torch_load]

theorem predict_value (env : TorchEnv P G OS I T O)
    {tr : FakeDetectorTrainer P OS I T} {d : Device} (x : I)
    (hd : tr.device = some d) :
    (FakeDetectorTrainer.predict env tr x).value? =
      some (env.forward tr.model.params (env.moveI d x)) := by
  rw [predict_some env x hd]
  rfl

theorem predict_value_eq (env : TorchEnv P G OS I T O)
    {ta tb : FakeDetectorTrainer P OS I T} {d : Device} (x : I)
    (hda : ta.device = some d) (hdb : tb.device = some d)
    (hp : ta.model.params = tb.model.params) :
    (FakeDetectorTrainer.predict env ta x).value? =
      (FakeDetectorTrainer.predict env tb x).value? := by
  rw [predict_value env x hda, predict_value env x hdb, hp]

theorem load_model_eq {tr : FakeDetectorTrainer P OS I T} {fs : FileSystem P OS}
    {path : String} {eval_mode : Bool} {c : Checkpoint P OS}
    (h : torch_load fs path = some c) :
    FakeDetectorTrainer.load_model tr fs path eval_mode =
      .ok { tr with
        model := { tr.model with
          params := c.model,
          mode := if eval_mode then Mode.evaluation else Mode.training },
        optimizerState := c.optimizer,
        total_epochs := c.total_epochs,
        losses := c.losses,
        val_losses := c.val_losses } () := by
  simp only [FakeDetectorTrainer.load_model, h]
  cases eval_mode <;> rfl

theorem train_series_nil (env : TorchEnv P G OS I T O)
    (tr : FakeDetectorTrainer P OS I T) :
    FakeDetectorTrainer.train_series env [] tr = .ok tr () := rfl

theorem train_series_cons_exn (env : TorchEnv P G OS I T O) {n : Nat} {ns : List Nat}
    {tr s : FakeDetectorTrainer P OS I T} {e : Err}
    (h : FakeDetectorTrainer.train env tr n = .exn s e) :
    FakeDetectorTrainer.train_series env (n :: ns) tr = .exn s e := by
  simp only [FakeDetectorTrainer.train_series, h]

theorem train_series_cons_ok (env : TorchEnv P G OS I T O) {n : Nat} {ns : List Nat}
    {tr tr2 : FakeDetectorTrainer P OS I T}
    (h : FakeDetectorTrainer.train env tr n = .ok tr2 ()) :
    FakeDetectorTrainer.train_series env (n :: ns) tr =
      FakeDetectorTrainer.train_series env ns tr2 := by
  simp only [FakeDetectorTrainer.train_series, h]

/-- Accumulated effect of a completed series of `train` calls on the three
`TrainingState` fields. -/
theorem train_series_ok {env : TorchEnv P G OS I T O} :
    ∀ {ns : List Nat} {tr tr' : FakeDetectorTrainer P OS I T},
    FakeDetectorTrainer.train_series env ns tr = .ok tr' () →
    tr'.total_epochs = tr.total_epochs + ns.sum ∧
    tr'.losses.length = tr.losses.length + ns.sum ∧
    tr'.val_losses.length = tr.val_losses.length + ns.sum := by
  intro ns
  induction ns with
  | nil =>
    intro tr tr' h
    rw [train_series_nil] at h
    cases h
    simp
  | cons n ns ih =>
    intro tr tr' h
    cases ht : FakeDetectorTrainer.train env tr n with
    | exn s e =>
      rw [train_series_cons_exn env ht] at h
      simp at h
    | ok tr2 u =>
      cases u
      rw [train_series_cons_ok env ht] at h
      obtain ⟨tls, vls, hlen1, hlen2, L, V, Tt, _, _, _, _, _⟩ := train_ok ht
      obtain ⟨iT, iL, iV⟩ := ih h
      refine ⟨?_, ?_, ?_⟩
      · rw [iT, Tt]
        simp [List.sum_cons]
        omega
      · rw [iL, L]
        simp [List.sum_cons, hlen1]
        omega
      · rw [iV, V]
        simp [List.sum_cons, hlen2]
        omega

/-- `writerEvents` written as one event per epoch index: the `k`-th emission
of a call of `n` epochs is tagged `k` and carries the `k`-th appended train
loss and the truthiness-filtered `k`-th appended validation loss. -/
theorem writerEvents_eq_map :
    ∀ {n k : Nat} {tls vls : List (Option ℚ)},
    tls.length = n → vls.length = n →
    writerEvents k tls vls = (List.range n).map (fun i =>
      { tag := k + i, trainValue := tls.getD i none,
        valValue := truthyFilter (vls.getD i none) }) := by
  intro n
  induction n with
  | zero =>
    intro k tls vls h1 h2
    rw [List.length_eq_zero] at h1 h2
    subst h1
    subst h2
    rfl
  | succ n ih =>
    intro k tls vls h1 h2
    cases tls with
    | nil => simp at h1
    | cons tl tls =>
      cases vls with
      | nil => simp at h2
      | cons vl vls =>
        simp only [List.length_cons, Nat.succ.injEq] at h1 h2
        rw [List.range_succ_eq_map, List.map_cons, List.map_map]
        show writerEvents k (tl :: tls) (vl :: vls) = _
        rw [show writerEvents k (tl :: tls) (vl :: vls) =
          { tag := k, trainValue := tl, valValue := truthyFilter vl } ::
            writerEvents (k + 1) tls vls from rfl]
        rw [ih h1 h2]
        refine congrArg₂ List.cons (by simp) ?_
        refine congrArg (fun f => List.map f (List.range n)) (funext fun i => ?_)
        simp only [Function.comp_apply, List.getD_cons_succ]
        refine congrArg₂ (fun a b => ScalarEvent.mk a (tls.getD i none) b) ?_ rfl
        omega

/-!
## A concrete instantiation

For the claim witnesses and counterexamples the capability types are
instantiated at `Int`: parameters, gradients, optimizer state, inputs,
targets and outputs are integers, the forward pass is `p + x`, both loss
functions return `o - t`, `backward` returns `x - y` and one optimizer step
subtracts the gradient from the parameters while counting steps in the
optimizer state.  Only the cpu device is available and cuda is reported
unavailable.
-/

def envEx : TorchEnv ℚ ℚ ℚ ℚ ℚ ℚ :=
  { forward := fun p x => p + x,
    train_loss_fn := fun o t => .ok (o - t),
    val_loss_fn := fun o t => .ok (o - t),
    backward := fun _ x y => x - y,
    optStep := fun os p g => (os + 1, p - g),
    moveI := fun _ x => x,
    moveT := fun _ y => y,
    avail := fun d => decide (d = Device.cpu),
    cudaAvailable := false }

/-- `envEx` with a training loss that always raises (e.g. a shape
mismatch inside the loss function). -/
def envFail : TorchEnv ℚ ℚ ℚ ℚ ℚ ℚ :=
  { envEx with train_loss_fn := fun _ _ => .error Err.stepError }

/-- `envEx` with a validation loss that is identically `0.0`. -/
def envZero : TorchEnv ℚ ℚ ℚ ℚ ℚ ℚ :=
  { envEx with val_loss_fn := fun _ _ => .ok 0 }

/-- `envEx` with a stub training loss returning the target itself, so each
batch has a known fixed loss. -/
def envStub : TorchEnv ℚ ℚ ℚ ℚ ℚ ℚ :=
  { envEx with train_loss_fn := fun _ t => .ok t }

/-- A model with parameter `0`, in training mode (the torch default), not
yet moved to any device. -/
def m0 : NNModule ℚ := { params := 0, mode := Mode.training, device := none }

/-- A freshly constructed session. -/
def trInit : FakeDetectorTrainer ℚ ℚ ℚ ℚ :=
  FakeDetectorTrainer.init ℚ ℚ m0 0

/-- The fresh session after `to("cpu")`. -/
def trBase : FakeDetectorTrainer ℚ ℚ ℚ ℚ :=
  (FakeDetectorTrainer.«to» envEx trInit Device.cpu).state

/-- `trBase` with one training batch `(1, 0)` and no validation loader. -/
def trOneBatch : FakeDetectorTrainer ℚ ℚ ℚ ℚ :=
  FakeDetectorTrainer.set_loaders trBase [(1, 0)] none

/-- `trBase` with a bound but empty training loader. -/
def trEmptyLoader : FakeDetectorTrainer ℚ ℚ ℚ ℚ :=
  FakeDetectorTrainer.set_loaders trBase [] none

/-- A fresh session with a training batch but with `to` never called. -/
def trNoDevice : FakeDetectorTrainer ℚ ℚ ℚ ℚ :=
  FakeDetectorTrainer.set_loaders trInit [(1, 0)] none

/-- `trBase` with four training batches of known stub losses 1, 2, 3, 4. -/
def trFourBatch : FakeDetectorTrainer ℚ ℚ ℚ ℚ :=
  FakeDetectorTrainer.set_loaders trBase [(0, 1), (0, 2), (0, 3), (0, 4)] none

/-- `trBase` with one training batch `(1, 0)`, one validation batch `(2, 0)`
and a tensorboard writer bound. -/
def trLogged : FakeDetectorTrainer ℚ ℚ ℚ ℚ :=
  FakeDetectorTrainer.set_tensorboard
    (FakeDetectorTrainer.set_loaders trBase [(1, 0)] (some [(2, 0)])) "tb" "runs" "t0"

/-- The state `train_series envEx [2, 3]` leaves a fresh loaderless session
in: five epochs counted, five absent entries in each history. -/
def C1res : FakeDetectorTrainer ℚ ℚ ℚ ℚ :=
  { model := m0, optimizerState := 0, device := none,
    train_loader := none, val_loader := none, writer := none,
    losses := [none, none, none, none, none],
    val_losses := [none, none, none, none, none],
    total_epochs := 5 }

/-- The state `train envEx · 1` leaves `trOneBatch` in. -/
def C2pre : FakeDetectorTrainer ℚ ℚ ℚ ℚ :=
  { model := { params := -1, mode := Mode.training, device := some Device.cpu },
    optimizerState := 1, device := some Device.cpu,
    train_loader := some [(1, 0)], val_loader := none, writer := none,
    losses := [some 1], val_losses := [none], total_epochs := 1 }

/-- The state the failing `train envFail · 1` call leaves `trOneBatch` in:
the epoch was already counted, but no history entry was appended. -/
def C3s : FakeDetectorTrainer ℚ ℚ ℚ ℚ :=
  { model := { params := 0, mode := Mode.training, device := some Device.cpu },
    optimizerState := 0, device := some Device.cpu,
    train_loader := some [(1, 0)], val_loader := none, writer := none,
    losses := [], val_losses := [], total_epochs := 1 }

/-- The state `train envEx · 2` leaves `trOneBatch` in: parameters moved
from 0 to -2, two loss entries, two absent validation entries. -/
def C4res : FakeDetectorTrainer ℚ ℚ ℚ ℚ :=
  { model := { params := -2, mode := Mode.training, device := some Device.cpu },
    optimizerState := 2, device := some Device.cpu,
    train_loader := some [(1, 0)], val_loader := none, writer := none,
    losses := [some 1, some 0], val_losses := [none, none], total_epochs := 2 }

/-- The state one training pass of `envStub` leaves `trFourBatch` in. -/
def C5res : FakeDetectorTrainer ℚ ℚ ℚ ℚ :=
  { model := { params := 10, mode := Mode.training, device := some Device.cpu },
    optimizerState := 4, device := some Device.cpu,
    train_loader := some [(0, 1), (0, 2), (0, 3), (0, 4)], val_loader := none,
    writer := none, losses := [], val_losses := [], total_epochs := 0 }

/-- The writer state after the `train envEx · 1` run on `trLogged`: one
emission, tagged 0, carrying both scalars, flushed. -/
def C6writer : SummaryWriter :=
  { log_dir := "runs" ++ "/" ++ "tb" ++ "_" ++ "t0",
    events := [{ tag := 0, trainValue := some 1, valValue := some 1 }],
    flushed := true }

/-- The writer state after the `train envZero · 1` run on `trLogged`: one
emission, tagged 0, with no "loss/val" entry, flushed. -/
def C6zwriter : SummaryWriter :=
  { log_dir := "runs" ++ "/" ++ "tb" ++ "_" ++ "t0",
    events := [{ tag := 0, trainValue := some 1, valValue := none }],
    flushed := true }

/-- The state `train envEx · 1` leaves `trLogged` in: the nonzero validation
loss is present in `val_losses` and in the emission. -/
def C6res : FakeDetectorTrainer ℚ ℚ ℚ ℚ :=
  { model := { params := -1, mode := Mode.evaluation, device := some Device.cpu },
    optimizerState := 1, device := some Device.cpu,
    train_loader := some [(1, 0)], val_loader := some [(2, 0)],
    writer := some C6writer,
    losses := [some 1], val_losses := [some 1], total_epochs := 1 }

/-- The state `train envZero · 1` leaves `trLogged` in: the validation loss
is present (`some 0`) in `val_losses`, yet the emission carries no
"loss/val" entry because `0.0` is falsy in Python. -/
def C6zres : FakeDetectorTrainer ℚ ℚ ℚ ℚ :=
  { model := { params := -1, mode := Mode.evaluation, device := some Device.cpu },
    optimizerState := 1, device := some Device.cpu,
    train_loader := some [(1, 0)], val_loader := some [(2, 0)],
    writer := some C6zwriter,
    losses := [some 1], val_losses := [some 0], total_epochs := 1 }

theorem run_C1 : FakeDetectorTrainer.train_series envEx [2, 3] trInit = .ok C1res () := by
  norm_num [FakeDetectorTrainer.train_series, FakeDetectorTrainer.train,
    FakeDetectorTrainer.train_loop, FakeDetectorTrainer.epoch_body,
    FakeDetectorTrainer.mini_batch, FakeDetectorTrainer.flush_writer,
    FakeDetectorTrainer.logEpoch, trInit, FakeDetectorTrainer.init, m0, C1res]

theorem run_C2 : FakeDetectorTrainer.train envEx trOneBatch 1 = .ok C2pre () := by
  norm_num [FakeDetectorTrainer.train, FakeDetectorTrainer.train_loop,
    FakeDetectorTrainer.epoch_body, FakeDetectorTrainer.mini_batch,
    FakeDetectorTrainer.miniBatchLoop, FakeDetectorTrainer.train_step,
    FakeDetectorTrainer.val_step, FakeDetectorTrainer.flush_writer,
    FakeDetectorTrainer.logEpoch, trOneBatch, FakeDetectorTrainer.set_loaders,
    trBase, FakeDetectorTrainer.«to», PyResult.state, trInit,
    FakeDetectorTrainer.init, m0, envEx, C2pre]

theorem run_C3 : FakeDetectorTrainer.train envFail trOneBatch 1 = .exn C3s Err.stepError := by
  norm_num [FakeDetectorTrainer.train, FakeDetectorTrainer.train_loop,
    FakeDetectorTrainer.epoch_body, FakeDetectorTrainer.mini_batch,
    FakeDetectorTrainer.miniBatchLoop, FakeDetectorTrainer.train_step,
    FakeDetectorTrainer.flush_writer, trOneBatch, FakeDetectorTrainer.set_loaders,
    trBase, FakeDetectorTrainer.«to», PyResult.state, trInit,
    FakeDetectorTrainer.init, m0, envFail, envEx, C3s]

theorem run_C4 : FakeDetectorTrainer.train envEx trOneBatch 2 = .ok C4res () := by
  norm_num [FakeDetectorTrainer.train, FakeDetectorTrainer.train_loop,
    FakeDetectorTrainer.epoch_body, FakeDetectorTrainer.mini_batch,
    FakeDetectorTrainer.miniBatchLoop, FakeDetectorTrainer.train_step,
    FakeDetectorTrainer.val_step, FakeDetectorTrainer.flush_writer,
    FakeDetectorTrainer.logEpoch, trOneBatch, FakeDetectorTrainer.set_loaders,
    trBase, FakeDetectorTrainer.«to», PyResult.state, trInit,
    FakeDetectorTrainer.init, m0, envEx, C4res]

theorem run_C5 : FakeDetectorTrainer.mini_batch envStub trFourBatch false =
    .ok C5res (some (5 / 2)) := by
  norm_num [FakeDetectorTrainer.mini_batch, FakeDetectorTrainer.miniBatchLoop,
    FakeDetectorTrainer.train_step, trFourBatch, FakeDetectorTrainer.set_loaders,
    trBase, FakeDetectorTrainer.«to», PyResult.state, trInit,
    FakeDetectorTrainer.init, m0, envStub, envEx, C5res]

theorem run_C6 : FakeDetectorTrainer.train envEx trLogged 1 = .ok C6res () := by
  norm_num [FakeDetectorTrainer.train, FakeDetectorTrainer.train_loop,
    FakeDetectorTrainer.epoch_body, FakeDetectorTrainer.mini_batch,
    FakeDetectorTrainer.miniBatchLoop, FakeDetectorTrainer.train_step,
    FakeDetectorTrainer.val_step, FakeDetectorTrainer.flush_writer,
    FakeDetectorTrainer.logEpoch, truthyFilter, pyTruthy, trLogged,
    FakeDetectorTrainer.set_tensorboard, FakeDetectorTrainer.set_loaders,
    trBase, FakeDetectorTrainer.«to», PyResult.state, trInit,
    FakeDetectorTrainer.init, m0, envEx, C6res, C6writer]

theorem run_C6z : FakeDetectorTrainer.train envZero trLogged 1 = .ok C6zres () := by
  norm_num [FakeDetectorTrainer.train, FakeDetectorTrainer.train_loop,
    FakeDetectorTrainer.epoch_body, FakeDetectorTrainer.mini_batch,
    FakeDetectorTrainer.miniBatchLoop, FakeDetectorTrainer.train_step,
    FakeDetectorTrainer.val_step, FakeDetectorTrainer.flush_writer,
    FakeDetectorTrainer.logEpoch, truthyFilter, pyTruthy, trLogged,
    FakeDetectorTrainer.set_tensorboard, FakeDetectorTrainer.set_loaders,
    trBase, FakeDetectorTrainer.«to», PyResult.state, trInit,
    FakeDetectorTrainer.init, m0, envZero, envEx, C6zres, C6zwriter]

/-!
## The claims
-/

/-- Claim C1: after any completed series of `train` calls starting from a
freshly constructed session, `len(losses) == len(val_losses) ==
total_epochs`; in particular `train(2)` followed by `train(3)` yields
`total_epochs == 5` and both histories of length 5 — training is resumable
and additive, not restart-from-zero. -/
theorem C1_train_series_invariant (env : TorchEnv P G OS I T O)
    (model : NNModule P) (os : OS) (ns : List Nat)
    (tr' : FakeDetectorTrainer P OS I T)
    (h : FakeDetectorTrainer.train_series env ns
      (FakeDetectorTrainer.init I T model os) = .ok tr' ()) :
    tr'.total_epochs = ns.sum ∧ tr'.losses.length = ns.sum ∧
      tr'.val_losses.length = ns.sum := by
  obtain ⟨hT, hL, hV⟩ := train_series_ok h
  refine ⟨?_, ?_, ?_⟩
  · simpa [FakeDetectorTrainer.init] using hT
  · simpa [FakeDetectorTrainer.init] using hL
  · simpa [FakeDetectorTrainer.init] using hV

theorem C1_train_series_invariant_witness :
    FakeDetectorTrainer.train_series envEx [2, 3] trInit = .ok C1res () ∧
    C1res.total_epochs = 5 ∧ C1res.losses.length = 5 ∧
      C1res.val_losses.length = 5 :=
  ⟨run_C1, C1_train_series_invariant envEx m0 0 [2, 3] C1res run_C1⟩

/-- Claim C2: `save_model(path)` followed by `load_model(path)` on a session
with the same model/optimizer architecture restores exactly `total_epochs`,
`losses` and `val_losses` (a full replacement of all three TrainingState
fields), sets the model mode from `eval_mode`, and the restored parameters
make a subsequent `predict(x)` output equal to the pre-save session's. -/
theorem C2_checkpoint_roundtrip (env : TorchEnv P G OS I T O)
    (tr tr₂ : FakeDetectorTrainer P OS I T) (fs : FileSystem P OS)
    (path : String) (eval_mode : Bool) (d : Device) (x : I)
    (hd1 : tr.device = some d) (hd2 : tr₂.device = some d) :
    ∃ tr₂', FakeDetectorTrainer.load_model tr₂
        (FakeDetectorTrainer.save_model tr fs path) path eval_mode =
          .ok tr₂' () ∧
      tr₂'.total_epochs = tr.total_epochs ∧
      tr₂'.losses = tr.losses ∧ tr₂'.val_losses = tr.val_losses ∧
      tr₂'.model.params = tr.model.params ∧
      tr₂'.optimizerState = tr.optimizerState ∧
      tr₂'.model.mode = (if eval_mode then Mode.evaluation else Mode.training) ∧
      (FakeDetectorTrainer.predict env tr₂' x).value? =
        (FakeDetectorTrainer.predict env tr x).value? ∧
      (FakeDetectorTrainer.predict env tr x).value?.isSome = true := by
  have hl : torch_load (FakeDetectorTrainer.save_model tr fs path) path = some
      { model := tr.model.params, optimizer := tr.optimizerState,
        total_epochs := tr.total_epochs, losses := tr.losses,
        val_losses := tr.val_losses } :=
    torch_load_save fs _ path
  refine ⟨_, load_model_eq hl, rfl, rfl, rfl, rfl, rfl, rfl, ?_, ?_⟩
  · exact predict_value_eq env x hd2 hd1 rfl
  · rw [predict_value env x hd1]
    rfl

theorem C2_checkpoint_roundtrip_witness :
    C2pre.device = some Device.cpu ∧ trBase.device = some Device.cpu ∧
    (∃ tr₂', FakeDetectorTrainer.load_model trBase
        (FakeDetectorTrainer.save_model C2pre [] "ckpt.pth") "ckpt.pth" false =
          .ok tr₂' () ∧
      tr₂'.total_epochs = C2pre.total_epochs ∧
      tr₂'.losses = C2pre.losses ∧ tr₂'.val_losses = C2pre.val_losses ∧
      tr₂'.model.params = C2pre.model.params ∧
      tr₂'.optimizerState = C2pre.optimizerState ∧
      tr₂'.model.mode = (if false then Mode.evaluation else Mode.training) ∧
      (FakeDetectorTrainer.predict envEx tr₂' 7).value? =
        (FakeDetectorTrainer.predict envEx C2pre 7).value? ∧
      (FakeDetectorTrainer.predict envEx C2pre 7).value?.isSome = true) :=
  ⟨rfl, rfl, C2_checkpoint_roundtrip envEx C2pre trBase [] "ckpt.pth" false
    Device.cpu 7 rfl rfl⟩

/-- Claim C3 counterexample: with a training loss that raises on the very
first batch, `train(1)` propagates the exception with zero fully completed
epochs — both histories are empty — yet `total_epochs` ends at 1, not 0:
`total_epochs` was incremented before the epoch ran, so it counts the failed
epoch, contradicting the claim that it agrees with the number of fully
completed epochs. -/
theorem C3_counterexample :
    FakeDetectorTrainer.train envFail trOneBatch 1 = .exn C3s Err.stepError ∧
    C3s.losses = [] ∧ C3s.val_losses = [] ∧ C3s.total_epochs = 1 ∧
    (1 : Nat) ≠ 0 :=
  ⟨run_C3, rfl, rfl, rfl, by decide⟩

/-- Claim C3 (amended): if an exception propagates out of a step function
mid-epoch during `train`, `losses` and `val_losses` contain entries only for
fully completed passes (with the failed epoch's training entry present
exactly when the failure was in the validation pass), but `total_epochs`
does NOT agree with the number of fully completed epochs: it also counts the
failed epoch, ending at completed + 1. -/
theorem C3_midEpoch_failure_state (env : TorchEnv P G OS I T O)
    (tr s : FakeDetectorTrainer P OS I T) (n : Nat) (e : Err)
    (h : FakeDetectorTrainer.train env tr n = .exn s e) :
    ∃ completed, completed < n ∧
      s.val_losses.length = tr.val_losses.length + completed ∧
      (s.losses.length = tr.losses.length + completed ∨
        s.losses.length = tr.losses.length + completed + 1) ∧
      s.total_epochs = tr.total_epochs + completed + 1 := by
  obtain ⟨c, h1, h2, h3, h4, _⟩ := train_exn h
  exact ⟨c, h1, h3, h4, h2⟩

theorem C3_midEpoch_failure_state_witness :
    FakeDetectorTrainer.train envFail trOneBatch 1 = .exn C3s Err.stepError ∧
    (∃ completed, completed < 1 ∧
      C3s.val_losses.length = trOneBatch.val_losses.length + completed ∧
      (C3s.losses.length = trOneBatch.losses.length + completed ∨
        C3s.losses.length = trOneBatch.losses.length + completed + 1) ∧
      C3s.total_epochs = trOneBatch.total_epochs + completed + 1) :=
  ⟨run_C3, C3_midEpoch_failure_state envFail trOneBatch C3s 1 Err.stepError run_C3⟩

/-- Claim C4: when no validation data source is bound, the validation pass
of `_mini_batch` returns the absent sentinel (not zero, not an error); after
a completed `train(n)`, `val_losses` gained `n` entries, every one absent,
while the training pass still ran: one loss entry was appended per epoch and
the model parameters and optimizer state evolved by `n` training passes over
the bound loader. -/
theorem C4_no_validation_mode (env : TorchEnv P G OS I T O)
    (tr tr' : FakeDetectorTrainer P OS I T) (n : Nat) (d : Device)
    (bs : List (I × T)) (hvl : tr.val_loader = none) (hd : tr.device = some d)
    (htl : tr.train_loader = some bs)
    (h : FakeDetectorTrainer.train env tr n = .ok tr' ()) :
    FakeDetectorTrainer.mini_batch env tr true = .ok tr none ∧
    tr'.val_losses = tr.val_losses ++ List.replicate n none ∧
    tr'.losses.length = tr.losses.length + n ∧
    (tr'.model.params, tr'.optimizerState) =
      (trainPassUpdate env d bs)^[n] (tr.model.params, tr.optimizerState) := by
  refine ⟨mini_batch_noLoader env (by simpa using hvl), ?_, ?_,
    train_params hd htl h⟩
  · obtain ⟨tls, vls, _, _, _, V, _, _, _, _, _, N⟩ := train_ok h
    rw [V, N hvl]
  · obtain ⟨tls, vls, h1, _, L, _, _, _, _, _, _, _⟩ := train_ok h
    rw [L]
    simp [h1]

theorem C4_no_validation_mode_witness :
    trOneBatch.val_loader = none ∧ trOneBatch.device = some Device.cpu ∧
    trOneBatch.train_loader = some [(1, 0)] ∧
    FakeDetectorTrainer.train envEx trOneBatch 2 = .ok C4res () ∧
    (FakeDetectorTrainer.mini_batch envEx trOneBatch true = .ok trOneBatch none ∧
     C4res.val_losses = trOneBatch.val_losses ++ List.replicate 2 none ∧
     C4res.losses.length = trOneBatch.losses.length + 2 ∧
     (C4res.model.params, C4res.optimizerState) =
       (trainPassUpdate envEx Device.cpu [(1, 0)])^[2]
         (trOneBatch.model.params, trOneBatch.optimizerState)) ∧
    C4res.model.params ≠ trOneBatch.model.params := by
  refine ⟨rfl, rfl, rfl, run_C4,
    C4_no_validation_mode envEx trOneBatch C4res 2 Device.cpu [(1, 0)]
      rfl rfl rfl run_C4, ?_⟩
  norm_num [C4res, trOneBatch, FakeDetectorTrainer.set_loaders, trBase,
    FakeDetectorTrainer.«to», PyResult.state, trInit, FakeDetectorTrainer.init,
    m0, envEx]

/-- Claim C5: a mini-batch pass that returns normally over a bound data
source visited every batch exactly once, in the source's order, invoking the
selected step function per batch (this is what `specBatchLosses`, written
from the specification, does), and returned the unweighted arithmetic mean
of the per-batch scalar losses: their sum divided by the batch count. -/
theorem C5_unweighted_mean (env : TorchEnv P G OS I T O)
    (tr tr2 : FakeDetectorTrainer P OS I T) (validation : Bool)
    (bs : List (I × T)) (r : Option ℚ)
    (hloader : (if validation then tr.val_loader else tr.train_loader) = some bs)
    (h : FakeDetectorTrainer.mini_batch env tr validation = .ok tr2 r) :
    bs ≠ [] ∧ ∃ ls : List ℚ,
      specBatchLosses env.moveI env.moveT
        (if validation then FakeDetectorTrainer.val_step env
         else FakeDetectorTrainer.train_step env) bs tr = .ok tr2 ls ∧
      ls.length = bs.length ∧
      r = some (ls.sum / (bs.length : ℚ)) := by
  obtain ⟨total, hloop, hr, hne⟩ := mini_batch_ok_inv hloader h
  obtain ⟨ls, hspec, hsum, hlen⟩ := miniBatchLoop_spec hloop
  refine ⟨hne, ls, hspec, hlen, ?_⟩
  rw [hr, hsum]
  simp

theorem C5_unweighted_mean_witness :
    (if false then trFourBatch.val_loader else trFourBatch.train_loader) =
      some [(0, 1), (0, 2), (0, 3), (0, 4)] ∧
    FakeDetectorTrainer.mini_batch envStub trFourBatch false =
      .ok C5res (some (5 / 2)) ∧
    ([(0, 1), (0, 2), (0, 3), (0, 4)] : List (ℚ × ℚ)) ≠ [] ∧
    (∃ ls : List ℚ,
      specBatchLosses envStub.moveI envStub.moveT
        (if false then FakeDetectorTrainer.val_step envStub
         else FakeDetectorTrainer.train_step envStub)
        [(0, 1), (0, 2), (0, 3), (0, 4)] trFourBatch = .ok C5res ls ∧
      ls.length = ([(0, 1), (0, 2), (0, 3), (0, 4)] : List (ℚ × ℚ)).length ∧
      (some (5 / 2) : Option ℚ) =
        some (ls.sum / (([(0, 1), (0, 2), (0, 3), (0, 4)] :
          List (ℚ × ℚ)).length : ℚ))) := by
  obtain ⟨h1, h2⟩ := C5_unweighted_mean envStub trFourBatch C5res false
    [(0, 1), (0, 2), (0, 3), (0, 4)] (some (5 / 2)) rfl run_C5
  exact ⟨rfl, run_C5, h1, h2⟩

/-- Claim C6 counterexample: one completed `train(1)` call on a session with
a metrics sink bound, one training batch and a validation pass whose loss is
exactly `0.0`: the validation result is present in `val_losses` (`some 0`),
yet the epoch's emission carries no "loss/val" entry — the code tests `if
val_loss:` (Python truthiness), so a present-but-zero validation loss is
omitted, refuting "contains the validation loss if and only if a validation
result is present". -/
theorem C6_counterexample :
    FakeDetectorTrainer.train envZero trLogged 1 = .ok C6zres () ∧
    C6zres.val_losses = [some 0] ∧
    C6zres.writer = some C6zwriter ∧
    C6zwriter.events = [{ tag := 0, trainValue := some 1, valValue := none }] :=
  ⟨run_C6z, rfl, rfl, rfl⟩

/-- Claim C6 (amended): during `train` with a metrics sink bound, exactly
one emission per epoch occurs, tagged by the call-local epoch index,
containing the epoch's train loss, and containing the validation loss if and
only if the validation result is truthy — present AND nonzero (the code
tests Python truthiness, conflating a `0.0` loss with absence); after the
epoch loop the sink is flushed. -/
theorem C6_metrics_emissions (env : TorchEnv P G OS I T O)
    (tr tr' : FakeDetectorTrainer P OS I T) (n : Nat) (w : SummaryWriter)
    (hw : tr.writer = some w)
    (h : FakeDetectorTrainer.train env tr n = .ok tr' ()) :
    ∃ tls vls : List (Option ℚ), tls.length = n ∧ vls.length = n ∧
      tr'.losses = tr.losses ++ tls ∧ tr'.val_losses = tr.val_losses ++ vls ∧
      tr'.writer = some { w with
        events := w.events ++ (List.range n).map (fun k =>
          { tag := k, trainValue := tls.getD k none,
            valValue := truthyFilter (vls.getD k none) }),
        flushed := true } := by
  obtain ⟨tls, vls, h1, h2, L, V, _, _, _, _, W, _⟩ := train_ok h
  refine ⟨tls, vls, h1, h2, L, V, ?_⟩
  rw [W, hw]
  simp only [Option.map_some']
  rw [writerEvents_eq_map h1 h2]
  simp

/-- The writer bound to `trLogged` before training. -/
def w0 : SummaryWriter :=
  { log_dir := "runs" ++ "/" ++ "tb" ++ "_" ++ "t0", events := [],
    flushed := false }

theorem C6_metrics_emissions_witness :
    trLogged.writer = some w0 ∧
    FakeDetectorTrainer.train envEx trLogged 1 = .ok C6res () ∧
    (∃ tls vls : List (Option ℚ), tls.length = 1 ∧ vls.length = 1 ∧
      C6res.losses = trLogged.losses ++ tls ∧
      C6res.val_losses = trLogged.val_losses ++ vls ∧
      C6res.writer = some { w0 with
        events := w0.events ++ (List.range 1).map (fun k =>
          { tag := k, trainValue := tls.getD k none,
            valValue := truthyFilter (vls.getD k none) }),
        flushed := true }) :=
  ⟨rfl, run_C6, C6_metrics_emissions envEx trLogged C6res 1 w0 rfl run_C6⟩

/-- Claim C7: the device-binding operation `to` either binds the session and
the model to the requested device, or, when torch cannot move the model
there, falls back to the deterministic default (cuda if available, else
cpu), emits a warning and does not raise — under the torch-model assumptions
that cpu is always available and that cuda availability implies cuda
works. -/
theorem C7_device_binding_fallback (env : TorchEnv P G OS I T O)
    (tr : FakeDetectorTrainer P OS I T) (d : Device)
    (hcpu : env.avail Device.cpu = true)
    (hcuda : env.cudaAvailable = true → env.avail Device.cuda = true) :
    ∃ tr' warned, FakeDetectorTrainer.«to» env tr d = .ok tr' warned ∧
      tr'.device = some (if env.avail d then d
        else if env.cudaAvailable then Device.cuda else Device.cpu) ∧
      tr'.model.device = tr'.device ∧
      warned = !env.avail d := by
  cases ha : env.avail d with
  | true =>
    refine ⟨{ tr with device := some d,
                      model := { tr.model with device := some d } },
      false, ?_, ?_, rfl, ?_⟩
    · simp [FakeDetectorTrainer.«to», ha]
    · simp [ha]
    · simp [ha]
  | false =>
    cases hc : env.cudaAvailable with
    | true =>
      refine ⟨{ tr with device := some Device.cuda,
                        model := { tr.model with device := some Device.cuda } },
        true, ?_, ?_, rfl, ?_⟩
      · simp [FakeDetectorTrainer.«to», ha, hc, hcuda hc]
      · simp [ha, hc]
      · simp [ha]
    | false =>
      refine ⟨{ tr with device := some Device.cpu,
                        model := { tr.model with device := some Device.cpu } },
        true, ?_, ?_, rfl, ?_⟩
      · simp [FakeDetectorTrainer.«to», ha, hc, hcpu]
      · simp [ha, hc]
      · simp [ha]

theorem C7_device_binding_fallback_witness :
    envEx.avail Device.cpu = true ∧
    (envEx.cudaAvailable = true → envEx.avail Device.cuda = true) ∧
    (∃ tr' warned,
      FakeDetectorTrainer.«to» envEx trInit (Device.other 0) = .ok tr' warned ∧
      tr'.device = some (if envEx.avail (Device.other 0) then Device.other 0
        else if envEx.cudaAvailable then Device.cuda else Device.cpu) ∧
      tr'.model.device = tr'.device ∧
      warned = !envEx.avail (Device.other 0)) :=
  ⟨rfl, by decide,
    C7_device_binding_fallback envEx trInit (Device.other 0) rfl (by decide)⟩

/-- Claim C8: `predict(x)` sets the model to evaluation mode (its resulting
state is in evaluation mode regardless of the prior state, so predict after
any `train` call never leaves the model in training mode), moves `x` to the
session's bound device, and returns the raw forward output — no thresholding
or post-processing.  (The forward pass runs under `torch.inference_mode()`;
the embedding carries no gradient state, matching a no-gradient scope.) -/
theorem C8_predict_contract (env : TorchEnv P G OS I T O)
    (tr : FakeDetectorTrainer P OS I T) (x : I) :
    ((FakeDetectorTrainer.predict env tr x).state).model.mode =
      Mode.evaluation ∧
    (∀ d, tr.device = some d →
      FakeDetectorTrainer.predict env tr x =
        .ok { tr with model := { tr.model with mode := Mode.evaluation } }
          (env.forward tr.model.params (env.moveI d x))) := by
  constructor
  · cases hd : tr.device with
    | none =>
      rw [predict_noDevice env x hd]
      rfl
    | some d =>
      rw [predict_some env x hd]
      rfl
  · intro d hd
    exact predict_some env x hd

theorem C8_predict_contract_witness :
    trBase.device = some Device.cpu ∧
    FakeDetectorTrainer.predict envEx trBase 7 =
      .ok { trBase with model := { trBase.model with mode := Mode.evaluation } }
        (envEx.forward trBase.model.params (envEx.moveI Device.cpu 7)) :=
  ⟨rfl, (C8_predict_contract envEx trBase 7).2 Device.cpu rfl⟩

/-- Claim C9: a bound training data source yielding zero batches makes
`_mini_batch` — and therefore `train` — fail with a division-by-zero error
when computing the epoch average: the accumulated loss is divided by the
batch count with no guard for an empty source. -/
theorem C9_empty_loader_zero_division (env : TorchEnv P G OS I T O)
    (tr : FakeDetectorTrainer P OS I T) (n : Nat)
    (h : tr.train_loader = some ([] : List (I × T))) :
    FakeDetectorTrainer.mini_batch env tr false = .exn tr Err.zeroDivisionError ∧
    (1 ≤ n → FakeDetectorTrainer.train env tr n =
      .exn { tr with total_epochs := tr.total_epochs + 1 }
        Err.zeroDivisionError) := by
  constructor
  · exact mini_batch_emptyLoader env (by simpa using h)
  · intro hn
    obtain ⟨m, rfl⟩ : ∃ m, n = m + 1 := ⟨n - 1, by omega⟩
    have hmb : FakeDetectorTrainer.mini_batch env
        { tr with total_epochs := tr.total_epochs + 1 } false =
        .exn { tr with total_epochs := tr.total_epochs + 1 }
          Err.zeroDivisionError :=
      mini_batch_emptyLoader env (by simpa using h)
    have hep := epoch_body_exn_train env (k := 0) hmb
    exact train_eq_exn env (train_loop_succ_exn env hep)

theorem C9_empty_loader_zero_division_witness :
    trEmptyLoader.train_loader = some ([] : List (ℚ × ℚ)) ∧ (1 : Nat) ≤ 1 ∧
    FakeDetectorTrainer.mini_batch envEx trEmptyLoader false =
      .exn trEmptyLoader Err.zeroDivisionError ∧
    FakeDetectorTrainer.train envEx trEmptyLoader 1 =
      .exn { trEmptyLoader with total_epochs := trEmptyLoader.total_epochs + 1 }
        Err.zeroDivisionError := by
  obtain ⟨h1, h2⟩ := C9_empty_loader_zero_division envEx trEmptyLoader 1 rfl
  exact ⟨rfl, by decide, h1, h2 (by decide)⟩

/-- Claim C10: the session's device is bound only by `to`, never by the
constructor: a fresh session has no bound device, and on any session whose
device was never bound, `predict` fails with an `AttributeError` when it
moves the input to the device, and so does `train` as soon as it must move
the first batch of a bound, non-empty training loader. -/
theorem C10_device_only_bound_by_to (env : TorchEnv P G OS I T O)
    (model : NNModule P) (os : OS) (tr : FakeDetectorTrainer P OS I T)
    (x : I) (b : I × T) (bs : List (I × T)) (n : Nat) :
    (FakeDetectorTrainer.init I T model os).device = none ∧
    (tr.device = none →
      FakeDetectorTrainer.predict env tr x =
        .exn { tr with model := { tr.model with mode := Mode.evaluation } }
          Err.attributeError) ∧
    (tr.device = none → tr.train_loader = some (b :: bs) → 1 ≤ n →
      FakeDetectorTrainer.train env tr n =
        .exn { tr with total_epochs := tr.total_epochs + 1 }
          Err.attributeError) := by
  refine ⟨rfl, fun hd => predict_noDevice env x hd, fun hd htl hn => ?_⟩
  obtain ⟨m, rfl⟩ : ∃ m, n = m + 1 := ⟨n - 1, by omega⟩
  obtain ⟨xx, yy⟩ := b
  have hloop : FakeDetectorTrainer.miniBatchLoop env.moveI env.moveT
      (FakeDetectorTrainer.train_step env) ((xx, yy) :: bs)
      { tr with total_epochs := tr.total_epochs + 1 } 0 =
      .exn { tr with total_epochs := tr.total_epochs + 1 }
        Err.attributeError :=
    miniBatchLoop_cons_noDevice env.moveI env.moveT
      (FakeDetectorTrainer.train_step env) xx yy bs 0 hd
  have hloader1 : (if false then
      ({ tr with total_epochs := tr.total_epochs + 1 } :
        FakeDetectorTrainer P OS I T).val_loader
    else ({ tr with total_epochs := tr.total_epochs + 1 } :
        FakeDetectorTrainer P OS I T).train_loader) = some ((xx, yy) :: bs) := htl
  have hmb := mini_batch_exn env hloader1 hloop
  have hep := epoch_body_exn_train env (k := 0) hmb
  exact train_eq_exn env (train_loop_succ_exn env hep)

theorem C10_device_only_bound_by_to_witness :
    trInit.device = none ∧ trNoDevice.device = none ∧
    trNoDevice.train_loader = some ((1, 0) :: []) ∧ (1 : Nat) ≤ 1 ∧
    FakeDetectorTrainer.predict envEx trNoDevice 7 =
      .exn { trNoDevice with
               model := { trNoDevice.model with mode := Mode.evaluation } }
        Err.attributeError ∧
    FakeDetectorTrainer.train envEx trNoDevice 1 =
      .exn { trNoDevice with total_epochs := trNoDevice.total_epochs + 1 }
        Err.attributeError := by
  obtain ⟨h1, h2, h3⟩ :=
    C10_device_only_bound_by_to envEx m0 0 trNoDevice 7 (1, 0) [] 1
  exact ⟨h1, rfl, rfl, by decide, h2 rfl, h3 rfl rfl (by decide)⟩

end FakeImageDetector
